import Mathlib

/-!
# Ramen boot loader (`src/boot/bootx64.cpp`): a shallow embedding

The firmware is modelled as a record of service results (`EFI_SYSTEM_TABLE`),
and every function returns, next to its C result, the list of firmware service
calls it made, in call order (`Call`).
-/

set_option maxRecDepth 100000

namespace Ramen

/-! ## Machine types

Values of the C types `UINT32`, `UINTN` and `EFI_PHYSICAL_ADDRESS` are natural
numbers; wrap-around is written out where the source can reach it.
-/

/-- An unsigned byte. -/
abbrev UINT8 := Fin 256

/-- A UCS-2 code unit. -/
abbrev CHAR16 := Nat

/-- A firmware handle. -/
abbrev EFI_HANDLE := Nat

/-- A firmware status code (a `UINTN`). -/
abbrev EFI_STATUS := Nat

/-- Modelled from the spec: `efi.h` is not among the sources; the success
status is zero, as in the UEFI specification. -/
def EFI_SUCCESS : EFI_STATUS := 0

/-- Modelled from the spec: `efi.h` is not among the sources; the UEFI
specification gives `EFI_UNSUPPORTED` the high bit and the code 3. -/
def EFI_UNSUPPORTED : EFI_STATUS := 0x8000000000000003

/-- Modelled from the spec: `efi.h` is not among the sources; the UEFI macro
`EFI_ERROR` tests the sign bit of the 64-bit status. -/
def EFI_ERROR (s : EFI_STATUS) : Bool := decide (0x8000000000000000 ≤ s)

/-- Modelled from the spec: `efi.h` is not among the sources; the pixel
formats enumerated by the UEFI graphics output protocol. -/
inductive EFI_GRAPHICS_PIXEL_FORMAT where
  | PixelRedGreenBlueReserved8BitPerColor
  | PixelBlueGreenRedReserved8BitPerColor
  | PixelBitMask
  | PixelBltOnly
  | PixelFormatMax
  deriving DecidableEq

open EFI_GRAPHICS_PIXEL_FORMAT

/-- Modelled from the spec: `efi.h` is not among the sources; the fields of
the UEFI mode descriptor that the program reads (the bit-mask record is left
out, nothing reads it). -/
structure EFI_GRAPHICS_OUTPUT_MODE_INFORMATION where
  Version : Nat
  HorizontalResolution : Nat
  VerticalResolution : Nat
  PixelFormat : EFI_GRAPHICS_PIXEL_FORMAT
  PixelsPerScanLine : Nat

/-- The protocol identifiers declared at the top of the source file. -/
inductive EFI_GUID where
  | kEfiLoadedImageProtocolGuid
  | kEfiSimpleFileSystemProtocolGuid
  | kEfiEdidDiscoveredProtocolGuid
  | kEfiGraphicsOutputProtocolGuid
  deriving DecidableEq

open EFI_GUID

/-- Modelled from the spec: `efi.h` is not among the sources; the allocation
kinds of the UEFI page allocator. -/
inductive EFI_ALLOCATE_TYPE where
  | AllocateAnyPages
  | AllocateMaxAddress
  | AllocateAddress
  deriving DecidableEq

/-- Modelled from the spec: `efi.h` is not among the sources; the memory
kinds the program may name (only `EfiLoaderData` is used). -/
inductive EFI_MEMORY_TYPE where
  | EfiReservedMemoryType
  | EfiLoaderCode
  | EfiLoaderData
  deriving DecidableEq

/-- One call into a firmware service, with the arguments the program chose. -/
inductive Call where
  | OutputString (str : List CHAR16)
  | HandleProtocol (handle : EFI_HANDLE) (guid : EFI_GUID)
  | OpenVolume
  | LocateProtocol (guid : EFI_GUID)
  | LocateHandleBuffer (guid : EFI_GUID)
  | OpenProtocol (handle : EFI_HANDLE) (guid : EFI_GUID) (agent : EFI_HANDLE)
  | QueryMode (i : Nat)
  | SetMode (i : Nat)
  | AllocatePages (type : EFI_ALLOCATE_TYPE) (memory_type : EFI_MEMORY_TYPE)
      (pages : Nat) (memory : Nat)
  deriving DecidableEq

/-- The graphics device as the program sees it through `*gop`: the two fields
of `Mode` it reads and the results of its two services. `QueryMode i` gives
the status and the descriptor found behind `info` after the call. -/
structure EFI_GRAPHICS_OUTPUT_PROTOCOL where
  MaxMode : Nat
  Mode : Nat
  QueryMode : Nat → EFI_STATUS × EFI_GRAPHICS_OUTPUT_MODE_INFORMATION
  SetMode : Nat → EFI_STATUS

/-- The firmware as the program sees it through `SystemTable`: for each
service, what it answers.
* `LocateProtocol`: the answer for the EDID protocol, a status and the bytes
  behind `edid->Edid`;
* `LocateHandleBuffer`: the answer for the graphics protocol, a status and the
  handle buffer;
* `OpenProtocol h`: status and the interface stored in `*gop`;
* `AllocatePages`: status and the address left in `*Memory`;
* `HandleProtocol h g`: the status for handle `h` and protocol `g`;
* `DeviceHandle`: the field of that name in the loaded image protocol;
* `OpenVolume`: the status of `efi_fio->OpenVolume`. -/
structure EFI_SYSTEM_TABLE where
  LocateProtocol : EFI_STATUS × List UINT8
  LocateHandleBuffer : EFI_STATUS × List EFI_HANDLE
  OpenProtocol : EFI_HANDLE → EFI_STATUS × EFI_GRAPHICS_OUTPUT_PROTOCOL
  AllocatePages : EFI_ALLOCATE_TYPE → EFI_MEMORY_TYPE → Nat → Nat →
    EFI_STATUS × Nat
  HandleProtocol : EFI_HANDLE → EFI_GUID → EFI_STATUS
  DeviceHandle : EFI_HANDLE
  OpenVolume : EFI_STATUS

/-- The parts of the boot image that the listed source does not fix, taken as
parameters: `OSSPrintf` of `include/utils.h` (from the format and the
arguments to the memory found behind `str` afterwards), and for each narrow
string literal the bytes that follow its terminator in the image. -/
structure BootImage where
  OSSPrintf : List CHAR16 → List Nat → List CHAR16
  rodata : List UINT8 → List UINT8

/-! ## Constants -/

/-- The initial value of the global `kPhysicalAddressOS`. -/
def kPhysicalAddressOS : Nat := 0x00100000

/-- The constant `kNumPagesForOS`. -/
def kNumPagesForOS : Nat := 256 * 2

/-! ## String literals -/

/-- The memory of a wide literal (`L"..."`, `u"..."`): its code units and the
terminator. -/
def wide (s : String) : List CHAR16 := s.toList.map Char.toNat ++ [0]

/-- The memory of a narrow literal (`"..."`): its bytes and the terminator. -/
def narrow (s : String) : List UINT8 := s.toList.map (fun c => Fin.ofNat c.toNat) ++ [0]

/-- Bytes read as little-endian 16-bit units, which is what a `(CHAR16*)` cast
of a byte pointer reads on x86-64. A last byte without a partner is read with
a zero high byte. -/
def asCHAR16 : List UINT8 → List CHAR16
  | [] => []
  | [lo] => [lo.val]
  | lo :: hi :: rest => (lo.val + 256 * hi.val) :: asCHAR16 rest

/-- The memory read through `(CHAR16*)message` for a narrow literal `message`:
the literal, its terminator and the bytes after it. -/
def castCHAR16 (img : BootImage) (message : String) : List CHAR16 :=
  asCHAR16 (narrow message ++ img.rodata (narrow message))

/-! ## The functions of `bootx64.cpp` -/

/-- `Print`: the argument is the memory from `str` on; the loop ends at the
first zero unit (memory past the end of the list reads as zero). Each other
unit costs one `OutputString` call, with `L"\r\n"` for a line feed and the
two-unit buffer `temp` otherwise. -/
def Print : List CHAR16 → List Call
  | [] => []
  | c :: rest =>
    if c = 0 then []
    else if c = 10 then Call.OutputString [13, 10, 0] :: Print rest
    else Call.OutputString [c, 0] :: Print rest

/-- `GetPreferredResolution`: the status, the values left in `*x` and `*y`, and
the calls made. Reading outside the descriptor block gives `none`. -/
def GetPreferredResolution (SystemTable : EFI_SYSTEM_TABLE) (x y : Nat) :
    Option (EFI_STATUS × Nat × Nat × List Call) :=
  let return_status := SystemTable.LocateProtocol.1
  let edid := SystemTable.LocateProtocol.2
  if !EFI_ERROR return_status then
    match edid[58]?, edid[56]?, edid[61]?, edid[59]? with
    | some b58, some b56, some b61, some b59 =>
      some (return_status,
        ((b58.val &&& 0xF0) <<< 4) + b56.val,
        ((b61.val &&& 0xF0) <<< 4) + b59.val,
        [Call.LocateProtocol kEfiEdidDiscoveredProtocolGuid])
    | _, _, _, _ => none
  else
    some (return_status, x, y, [Call.LocateProtocol kEfiEdidDiscoveredProtocolGuid])

/-- `CheckGopInfo`. -/
def CheckGopInfo (info : EFI_GRAPHICS_OUTPUT_MODE_INFORMATION) : EFI_STATUS :=
  if info.PixelFormat ≠ PixelBlueGreenRedReserved8BitPerColor then
    EFI_UNSUPPORTED
  else if info.HorizontalResolution ≠ info.PixelsPerScanLine then
    EFI_UNSUPPORTED
  else
    EFI_SUCCESS

/-- The test of line 127 of the source on one descriptor. -/
def modeMatches (preferred_resolution_x preferred_resolution_y : Nat)
    (info : EFI_GRAPHICS_OUTPUT_MODE_INFORMATION) : Bool :=
  !EFI_ERROR (CheckGopInfo info)
    && info.HorizontalResolution == preferred_resolution_x
    && info.VerticalResolution == preferred_resolution_y

/-- The `for` loop of `InitGop` from ordinal `i` on, with the statement after
it. The first argument bounds the number of iterations; `none` means the bound
was reached. The counter is a `UINT32`, so `i++` is taken modulo `2^32`. -/
def InitGopLoop (img : BootImage) (gop : EFI_GRAPHICS_OUTPUT_PROTOCOL)
    (preferred_resolution_x preferred_resolution_y : Nat) :
    Nat → Nat → Option (EFI_STATUS × List Call)
  | 0, _ => none
  | fuel + 1, i =>
    if i < gop.MaxMode then
      let info := (gop.QueryMode i).2
      let queried := Call.QueryMode i ::
        Print (img.OSSPrintf (wide "(%d, %d)\n")
          [info.HorizontalResolution, info.VerticalResolution])
      if modeMatches preferred_resolution_x preferred_resolution_y info then
        some (EFI_SUCCESS, queried ++ Call.SetMode i :: Print (wide "Set GOP.\n"))
      else
        match InitGopLoop img gop preferred_resolution_x preferred_resolution_y fuel
            ((i + 1) % 2 ^ 32) with
        | none => none
        | some (status, calls) => some (status, queried ++ calls)
    else
      some (EFI_UNSUPPORTED, Print (wide "Error: Preferred video mode not available\n"))

/-- `InitGop`: the status returned and the calls made. `none` stands for a read
outside the descriptor block or the handle buffer, or for a loop that did not
end within `MaxMode + 1` rounds. -/
def InitGop (img : BootImage) (ImageHandle : EFI_HANDLE) (SystemTable : EFI_SYSTEM_TABLE) :
    Option (EFI_STATUS × List Call) :=
  match GetPreferredResolution SystemTable 0 0 with
  | none => none
  | some (status1, preferred_resolution_x, preferred_resolution_y, calls1) =>
    if EFI_ERROR status1 then
      some (status1, calls1 ++
        Print (castCHAR16 img "Error: Could not get information from EDID.\n"))
    else
      let calls2 := calls1 ++ [Call.LocateHandleBuffer kEfiGraphicsOutputProtocolGuid]
      let status2 := SystemTable.LocateHandleBuffer.1
      let handle_buffer := SystemTable.LocateHandleBuffer.2
      if EFI_ERROR status2 then
        some (status2, calls2 ++ Print (castCHAR16 img "Error: GOP not found (first)\n"))
      else
        match handle_buffer[0]? with
        | none => none
        | some handle =>
          let calls3 := calls2 ++ [Call.OpenProtocol handle kEfiGraphicsOutputProtocolGuid ImageHandle]
          let status3 := (SystemTable.OpenProtocol handle).1
          let gop := (SystemTable.OpenProtocol handle).2
          if EFI_ERROR status3 then
            some (status3, calls3 ++ Print (castCHAR16 img "Error: GOP not found (second)\n"))
          else
            let calls4 := calls3
              ++ Print (wide "GOP Found.\n")
              ++ Print (img.OSSPrintf (wide "Mode: %d\n") [gop.Mode])
              ++ Print (img.OSSPrintf (wide "Preferred x: %d\n") [preferred_resolution_x])
              ++ Print (img.OSSPrintf (wide "Preferred y: %d\n") [preferred_resolution_y])
            match InitGopLoop img gop preferred_resolution_x preferred_resolution_y
                (gop.MaxMode + 1) 0 with
            | none => none
            | some (status, calls) => some (status, calls4 ++ calls)

/-- `AllocateMemoryForOS`, called while the global `kPhysicalAddressOS` holds
`address`: the status, the value left in the global, and the call made. -/
def AllocateMemoryForOS (SystemTable : EFI_SYSTEM_TABLE) (address : Nat) :
    EFI_STATUS × Nat × List Call :=
  let r := SystemTable.AllocatePages EFI_ALLOCATE_TYPE.AllocateAddress
    EFI_MEMORY_TYPE.EfiLoaderData kNumPagesForOS address
  (r.1, r.2, [Call.AllocatePages EFI_ALLOCATE_TYPE.AllocateAddress
    EFI_MEMORY_TYPE.EfiLoaderData kNumPagesForOS address])

/-- `PrepareFilesystem`: the status returned and the calls made. -/
def PrepareFilesystem (ImageHandle : EFI_HANDLE) (SystemTable : EFI_SYSTEM_TABLE) :
    EFI_STATUS × List Call :=
  let status1 := SystemTable.HandleProtocol ImageHandle kEfiLoadedImageProtocolGuid
  let calls1 := [Call.HandleProtocol ImageHandle kEfiLoadedImageProtocolGuid]
  if EFI_ERROR status1 then (status1, calls1)
  else
    let status2 :=
      SystemTable.HandleProtocol SystemTable.DeviceHandle kEfiSimpleFileSystemProtocolGuid
    let calls2 := calls1 ++
      [Call.HandleProtocol SystemTable.DeviceHandle kEfiSimpleFileSystemProtocolGuid]
    if EFI_ERROR status2 then (status2, calls2)
    else
      let status3 := SystemTable.OpenVolume
      let calls3 := calls2 ++ [Call.OpenVolume]
      if EFI_ERROR status3 then (status3, calls3)
      else (EFI_SUCCESS, calls3)

/-- The endless loop in which `EfiMain` stops: the `LOOP_ON_ERROR` of one of
its three stages, or the loop at its end. -/
inductive Halt where
  | PrepareFilesystem
  | AllocateMemoryForOS
  | InitGop
  | End
  deriving DecidableEq

/-- `EfiMain`: the loop it stops in and the calls made before. The global
`kPhysicalAddressOS` still has its initial value at the one call of
`AllocateMemoryForOS`. `none` as for `InitGop`. -/
def EfiMain (img : BootImage) (ImageHandle : EFI_HANDLE) (SystemTable : EFI_SYSTEM_TABLE) :
    Option (Halt × List Call) :=
  let calls1 := Print (wide "Preparing filesystem...\n")
  let fs := PrepareFilesystem ImageHandle SystemTable
  if EFI_ERROR fs.1 then
    some (Halt.PrepareFilesystem,
      calls1 ++ fs.2 ++ Print (castCHAR16 img "Failed to prepare filesystem\n"))
  else
    let calls2 := calls1 ++ fs.2 ++ Print (wide "Allocating memory...\n")
    let mem := AllocateMemoryForOS SystemTable kPhysicalAddressOS
    if EFI_ERROR mem.1 then
      some (Halt.AllocateMemoryForOS,
        calls2 ++ mem.2.2 ++ Print (castCHAR16 img "Failed to allocate memory for OS.\n"))
    else
      let calls3 := calls2 ++ mem.2.2 ++ Print (wide "Initializing GOP...\n")
      match InitGop img ImageHandle SystemTable with
      | none => none
      | some (status, calls) =>
        if EFI_ERROR status then
          some (Halt.InitGop,
            calls3 ++ calls ++ Print (castCHAR16 img "Failed to initialize GOP.\n"))
        else
          some (Halt.End,
            calls3 ++ calls ++ Print (wide "Hello World!\n")
              ++ Print (wide "Make America Great Again!\n"))

/-! ## Reading a trace -/

/-- The string stored at a pointer: the units before the first zero. -/
def cstr (mem : List CHAR16) : List CHAR16 := mem.takeWhile (fun c => c != 0)

/-- The text handed to the console by a sequence of calls, in call order. -/
def consoleText : List Call → List CHAR16
  | [] => []
  | Call.OutputString str :: rest => cstr str ++ consoleText rest
  | _ :: rest => consoleText rest

/-- The ordinals handed to `SetMode` by a sequence of calls, in call order. -/
def setModeCalls : List Call → List Nat
  | [] => []
  | Call.SetMode i :: rest => i :: setModeCalls rest
  | _ :: rest => setModeCalls rest

/-- The ordinals handed to `QueryMode` by a sequence of calls, in call order. -/
def queryModeCalls : List Call → List Nat
  | [] => []
  | Call.QueryMode i :: rest => i :: queryModeCalls rest
  | _ :: rest => queryModeCalls rest

/-- The handles handed to `OpenProtocol` by a sequence of calls, in call
order. -/
def openProtocolCalls : List Call → List EFI_HANDLE
  | [] => []
  | Call.OpenProtocol handle _ _ :: rest => handle :: openProtocolCalls rest
  | _ :: rest => openProtocolCalls rest

/-- The `QueryMode` and `SetMode` calls of a sequence of calls, in call order. -/
def gopCalls : List Call → List Call
  | [] => []
  | Call.QueryMode i :: rest => Call.QueryMode i :: gopCalls rest
  | Call.SetMode i :: rest => Call.SetMode i :: gopCalls rest
  | _ :: rest => gopCalls rest

/-- Whether a call is a console call. -/
def isConsole : Call → Bool
  | Call.OutputString _ => true
  | _ => false

/-- Whether a call belongs to the file-system stage. -/
def isFilesystem : Call → Bool
  | Call.HandleProtocol _ _ => true
  | Call.OpenVolume => true
  | _ => false

/-- Whether a call is a page allocation. -/
def isAllocatePages : Call → Bool
  | Call.AllocatePages _ _ _ _ => true
  | _ => false

/-- Whether a call belongs to display negotiation. -/
def isNegotiation : Call → Bool
  | Call.LocateProtocol _ => true
  | Call.LocateHandleBuffer _ => true
  | Call.OpenProtocol _ _ _ => true
  | Call.QueryMode _ => true
  | Call.SetMode _ => true
  | _ => false

/-- Whether a call belongs to device enumeration. -/
def isEnumeration : Call → Bool
  | Call.LocateHandleBuffer _ => true
  | Call.OpenProtocol _ _ _ => true
  | Call.QueryMode _ => true
  | Call.SetMode _ => true
  | _ => false

/-- A text with every line feed replaced by carriage return and line feed. -/
def crlf : List CHAR16 → List CHAR16
  | [] => []
  | c :: rest => if c = 10 then 13 :: 10 :: crlf rest else c :: crlf rest

/-- The horizontal timing as the specification states it: the byte at 56 plus
the high nibble of the byte at 58 placed in bits 8 to 11. -/
def specHorizontal (edid : List UINT8) : Nat :=
  (edid.getD 56 0).val + 256 * ((edid.getD 58 0).val / 16)

/-- The vertical timing as the specification states it: the byte at 59 plus
the high nibble of the byte at 61 placed in bits 8 to 11. -/
def specVertical (edid : List UINT8) : Nat :=
  (edid.getD 59 0).val + 256 * ((edid.getD 61 0).val / 16)

/-! ## Variations of the firmware -/

/-- A graphics device with the same descriptors whose `QueryMode` and `SetMode`
answer with the given statuses. -/
def withStatuses (gop : EFI_GRAPHICS_OUTPUT_PROTOCOL) (query set : Nat → EFI_STATUS) :
    EFI_GRAPHICS_OUTPUT_PROTOCOL :=
  { gop with
    QueryMode := fun i => (query i, (gop.QueryMode i).2),
    SetMode := set }

/-- A firmware that differs only in the statuses of `QueryMode` and `SetMode`
of its graphics devices. -/
def withGopStatuses (st : EFI_SYSTEM_TABLE) (query set : Nat → EFI_STATUS) :
    EFI_SYSTEM_TABLE :=
  { st with
    OpenProtocol := fun h => ((st.OpenProtocol h).1, withStatuses (st.OpenProtocol h).2 query set) }

/-- A firmware whose page allocator is in state `s`: `alloc` maps a state and
a request to the status, the address left in `*Memory`, and the next state. -/
def firmwareAt {σ : Type} (st : EFI_SYSTEM_TABLE)
    (alloc : σ → EFI_ALLOCATE_TYPE → EFI_MEMORY_TYPE → Nat → Nat → EFI_STATUS × Nat × σ)
    (s : σ) : EFI_SYSTEM_TABLE :=
  { st with AllocatePages := fun t m p a => ((alloc s t m p a).1, (alloc s t m p a).2.1) }

/-- Two calls of `AllocateMemoryForOS` in a row against an allocator that
starts in state `s0`: the second call meets the allocator state and the value
of the global `kPhysicalAddressOS` that the first call left. -/
def AllocateMemoryForOS_twice {σ : Type} (st : EFI_SYSTEM_TABLE)
    (alloc : σ → EFI_ALLOCATE_TYPE → EFI_MEMORY_TYPE → Nat → Nat → EFI_STATUS × Nat × σ)
    (s0 : σ) : (EFI_STATUS × Nat × List Call) × (EFI_STATUS × Nat × List Call) :=
  let first := AllocateMemoryForOS (firmwareAt st alloc s0) kPhysicalAddressOS
  let s1 := (alloc s0 EFI_ALLOCATE_TYPE.AllocateAddress EFI_MEMORY_TYPE.EfiLoaderData
    kNumPagesForOS kPhysicalAddressOS).2.2
  let second := AllocateMemoryForOS (firmwareAt st alloc s1) first.2.1
  (first, second)

/-- Modelled from the spec: the fixed-address page allocator
`AllocateFixed(address, pageCount) -> Status` of the specification, with the
list of granted ranges (base, pages) as its state: a request that overlaps a
granted range is rejected with `EFI_NOT_FOUND`, any other is granted and
leaves the requested address in `*Memory`. -/
def rangeAllocator (s : List (Nat × Nat)) (_t : EFI_ALLOCATE_TYPE) (_m : EFI_MEMORY_TYPE)
    (pages address : Nat) : EFI_STATUS × Nat × List (Nat × Nat) :=
  if s.any (fun r => decide (address < r.1 + r.2 * 4096) && decide (r.1 < address + pages * 4096))
  then (0x800000000000000E, address, s)
  else (EFI_SUCCESS, address, (address, pages) :: s)

/-- An allocator that rejects and reserves as `rangeAllocator` does, but on a
grant leaves the end of the granted range in `*Memory` instead of the
requested address. -/
def shiftingAllocator (s : List (Nat × Nat)) (_t : EFI_ALLOCATE_TYPE) (_m : EFI_MEMORY_TYPE)
    (pages address : Nat) : EFI_STATUS × Nat × List (Nat × Nat) :=
  if s.any (fun r => decide (address < r.1 + r.2 * 4096) && decide (r.1 < address + pages * 4096))
  then (0x800000000000000E, address, s)
  else (EFI_SUCCESS, address + pages * 4096, (address, pages) :: s)

/-- The addresses reserved in a state of `rangeAllocator` or of
`shiftingAllocator`. -/
def rangeReserved (s : List (Nat × Nat)) (x : Nat) : Prop :=
  ∃ r ∈ s, r.1 ≤ x ∧ x < r.1 + r.2 * 4096

/-! ## Scenarios -/

/-- A descriptor with the accepted pixel layout. -/
def bgr8 (h v stride : Nat) : EFI_GRAPHICS_OUTPUT_MODE_INFORMATION :=
  { Version := 0, HorizontalResolution := h, VerticalResolution := v,
    PixelFormat := PixelBlueGreenRedReserved8BitPerColor, PixelsPerScanLine := stride }

/-- A 128-byte descriptor block whose preferred timing is 1920 by 1080. -/
def edid1920x1080 : List UINT8 :=
  List.replicate 56 0 ++ [0x80, 0xA0, 0x70, 0x38, 0x1F, 0x40] ++ List.replicate 66 0

/-- A graphics device that reports the given descriptors, in order. -/
def gopOf (modes : List EFI_GRAPHICS_OUTPUT_MODE_INFORMATION) : EFI_GRAPHICS_OUTPUT_PROTOCOL :=
  { MaxMode := modes.length, Mode := 0,
    QueryMode := fun i => (EFI_SUCCESS, modes.getD i (bgr8 0 0 0)),
    SetMode := fun _ => EFI_SUCCESS }

/-- A firmware with one monitor and one graphics device. -/
def firmwareOf (edid : List UINT8) (modes : List EFI_GRAPHICS_OUTPUT_MODE_INFORMATION) :
    EFI_SYSTEM_TABLE :=
  { LocateProtocol := (EFI_SUCCESS, edid),
    LocateHandleBuffer := (EFI_SUCCESS, [7]),
    OpenProtocol := fun _ => (EFI_SUCCESS, gopOf modes),
    AllocatePages := fun _ _ _ a => (EFI_SUCCESS, a),
    HandleProtocol := fun _ _ => EFI_SUCCESS,
    DeviceHandle := 3,
    OpenVolume := EFI_SUCCESS }

/-- The three modes of the first scenario. -/
def scenarioModes : List EFI_GRAPHICS_OUTPUT_MODE_INFORMATION :=
  [bgr8 1920 1080 1920, bgr8 1920 1080 2048, bgr8 1280 720 1280]

/-- A firmware without a monitor descriptor: discovery fails with
`EFI_NOT_FOUND`. -/
def firmwareNoEdid : EFI_SYSTEM_TABLE :=
  { LocateProtocol := (0x800000000000000E, []),
    LocateHandleBuffer := (EFI_SUCCESS, [7]),
    OpenProtocol := fun _ => (EFI_SUCCESS, gopOf []),
    AllocatePages := fun _ _ _ a => (EFI_SUCCESS, a),
    HandleProtocol := fun _ _ => EFI_SUCCESS,
    DeviceHandle := 3,
    OpenVolume := EFI_SUCCESS }

/-- A firmware whose page allocator rejects every request with
`EFI_NOT_FOUND`. -/
def firmwareNoMemory : EFI_SYSTEM_TABLE :=
  { firmwareOf edid1920x1080 scenarioModes with
    AllocatePages := fun _ _ _ a => (0x800000000000000E, a) }

/-- A firmware whose `QueryMode` and `SetMode` report `EFI_DEVICE_ERROR`. -/
def firmwareModeErrors : EFI_SYSTEM_TABLE :=
  withGopStatuses (firmwareOf edid1920x1080 scenarioModes)
    (fun _ => 0x8000000000000007) (fun _ => 0x8000000000000007)

/-- A firmware whose handle enumeration fails with `EFI_NOT_FOUND`. -/
def firmwareNoGop : EFI_SYSTEM_TABLE :=
  { firmwareOf edid1920x1080 scenarioModes with
    LocateHandleBuffer := (0x800000000000000E, []) }

/-- A firmware with two graphics handles whose first handle cannot be opened
(`EFI_ACCESS_DENIED`) while the second could. -/
def firmwareOpenRejected : EFI_SYSTEM_TABLE :=
  { firmwareOf edid1920x1080 scenarioModes with
    LocateHandleBuffer := (EFI_SUCCESS, [7, 8]),
    OpenProtocol := fun h =>
      (if h = 7 then 0x800000000000000F else EFI_SUCCESS, gopOf scenarioModes) }

/-- A boot image whose formatter writes nothing and whose literals are
followed by zero bytes. -/
def plainImage : BootImage :=
  { OSSPrintf := fun _ _ => [0], rodata := fun _ => [0] }

/-- The calls `InitGop` makes in the first scenario. -/
def scenarioCalls : List Call :=
  ((InitGop plainImage 1 (firmwareOf edid1920x1080 scenarioModes)).getD (EFI_UNSUPPORTED, [])).2

/-! ## Helper lemmas -/

lemma mask_shift_byte : ∀ b : UINT8, (b.val &&& 0xF0) <<< 4 = 256 * (b.val / 16) := by
  decide

lemma getElem?_eq_some_getD {α : Type} (l : List α) (n : Nat) (d : α) (h : n < l.length) :
    l[n]? = some (l.getD n d) := by
  rw [List.getD_eq_getElem?_getD, List.getElem?_eq_getElem h]
  rfl

lemma GetPreferredResolution_success (st : EFI_SYSTEM_TABLE) (x y : Nat)
    (hs : EFI_ERROR st.LocateProtocol.1 = false) (hlen : 62 ≤ st.LocateProtocol.2.length) :
    GetPreferredResolution st x y =
      some (st.LocateProtocol.1, specHorizontal st.LocateProtocol.2,
        specVertical st.LocateProtocol.2,
        [Call.LocateProtocol kEfiEdidDiscoveredProtocolGuid]) := by
  have h56 := getElem?_eq_some_getD st.LocateProtocol.2 56 0 (by omega)
  have h58 := getElem?_eq_some_getD st.LocateProtocol.2 58 0 (by omega)
  have h59 := getElem?_eq_some_getD st.LocateProtocol.2 59 0 (by omega)
  have h61 := getElem?_eq_some_getD st.LocateProtocol.2 61 0 (by omega)
  simp only [GetPreferredResolution, hs, h56, h58, h59, h61, mask_shift_byte,
    specHorizontal, specVertical]
  simp [Nat.add_comm]

lemma GetPreferredResolution_error (st : EFI_SYSTEM_TABLE) (x y : Nat)
    (hs : EFI_ERROR st.LocateProtocol.1 = true) :
    GetPreferredResolution st x y =
      some (st.LocateProtocol.1, x, y, [Call.LocateProtocol kEfiEdidDiscoveredProtocolGuid]) := by
  simp [GetPreferredResolution, hs]

lemma specHorizontal_lt (edid : List UINT8) : specHorizontal edid < 4096 := by
  unfold specHorizontal
  have h1 := (edid.getD 56 0).isLt
  have h2 := (edid.getD 58 0).isLt
  omega

lemma specVertical_lt (edid : List UINT8) : specVertical edid < 4096 := by
  unfold specVertical
  have h1 := (edid.getD 59 0).isLt
  have h2 := (edid.getD 61 0).isLt
  omega


lemma GetPreferredResolution_short (st : EFI_SYSTEM_TABLE) (x y : Nat)
    (hs : EFI_ERROR st.LocateProtocol.1 = false) (hlen : st.LocateProtocol.2.length < 62) :
    GetPreferredResolution st x y = none := by
  have h61 : st.LocateProtocol.2[61]? = none := List.getElem?_eq_none (by omega)
  simp only [GetPreferredResolution, hs, h61]
  simp

/-! ## Timing extraction -/

/-- C3: when discovery succeeds on a block of at least 62 bytes,
`GetPreferredResolution` yields byte 56 plus 256 times the high nibble of byte
58, and byte 59 plus 256 times the high nibble of byte 61; any other firmware
whose block agrees on bytes 56 and 59 and on the high nibbles of bytes 58 and
61 yields the same pair, whatever its other bytes and the prior outputs. -/
theorem GetPreferredResolution_formula (st : EFI_SYSTEM_TABLE) (x y : Nat)
    (hs : EFI_ERROR st.LocateProtocol.1 = false) (hlen : 62 ≤ st.LocateProtocol.2.length) :
    (∃ calls, GetPreferredResolution st x y =
      some (st.LocateProtocol.1,
        (st.LocateProtocol.2.getD 56 0).val + 256 * ((st.LocateProtocol.2.getD 58 0).val / 16),
        (st.LocateProtocol.2.getD 59 0).val + 256 * ((st.LocateProtocol.2.getD 61 0).val / 16),
        calls)) ∧
    ∀ (st2 : EFI_SYSTEM_TABLE) (x2 y2 : Nat),
      EFI_ERROR st2.LocateProtocol.1 = false → 62 ≤ st2.LocateProtocol.2.length →
      st2.LocateProtocol.2.getD 56 0 = st.LocateProtocol.2.getD 56 0 →
      st2.LocateProtocol.2.getD 59 0 = st.LocateProtocol.2.getD 59 0 →
      (st2.LocateProtocol.2.getD 58 0).val / 16 = (st.LocateProtocol.2.getD 58 0).val / 16 →
      (st2.LocateProtocol.2.getD 61 0).val / 16 = (st.LocateProtocol.2.getD 61 0).val / 16 →
      (GetPreferredResolution st2 x2 y2).map (fun r => (r.2.1, r.2.2.1)) =
        (GetPreferredResolution st x y).map (fun r => (r.2.1, r.2.2.1)) := by
  refine ⟨⟨_, GetPreferredResolution_success st x y hs hlen⟩, ?_⟩
  intro st2 x2 y2 hs2 hlen2 e56 e59 e58 e61
  rw [GetPreferredResolution_success st x y hs hlen,
    GetPreferredResolution_success st2 x2 y2 hs2 hlen2]
  simp only [Option.map_some', specHorizontal, specVertical, e56, e59, e58, e61]

/-- Witness for C3 on the 1920 by 1080 block. -/
theorem GetPreferredResolution_formula_witness :
    ∃ calls, GetPreferredResolution (firmwareOf edid1920x1080 scenarioModes) 5 6 =
      some (EFI_SUCCESS, 0x80 + 256 * (0x70 / 16), 0x38 + 256 * (0x40 / 16), calls) :=
  (GetPreferredResolution_formula (firmwareOf edid1920x1080 scenarioModes) 5 6
    (by decide) (by decide)).1

/-- C4: round trip of the 12-bit encoding. If byte 56 is `h mod 256`, the high
nibble of byte 58 is `h div 256`, byte 59 is `v mod 256` and the high nibble of
byte 61 is `v div 256`, with `h, v < 4096`, then `GetPreferredResolution`
returns `(h, v)`; and every pair extracted on success is below 4096. -/
theorem GetPreferredResolution_round_trip (st : EFI_SYSTEM_TABLE) (x y h v : Nat)
    (hs : EFI_ERROR st.LocateProtocol.1 = false) (hlen : 62 ≤ st.LocateProtocol.2.length)
    (_hh : h < 4096) (_hv : v < 4096)
    (h56 : (st.LocateProtocol.2.getD 56 0).val = h % 256)
    (h58 : (st.LocateProtocol.2.getD 58 0).val / 16 = h / 256)
    (h59 : (st.LocateProtocol.2.getD 59 0).val = v % 256)
    (h61 : (st.LocateProtocol.2.getD 61 0).val / 16 = v / 256) :
    (∃ calls, GetPreferredResolution st x y = some (st.LocateProtocol.1, h, v, calls)) ∧
    ∀ (st2 : EFI_SYSTEM_TABLE) (x2 y2 : Nat) (r : EFI_STATUS × Nat × Nat × List Call),
      EFI_ERROR st2.LocateProtocol.1 = false → GetPreferredResolution st2 x2 y2 = some r →
      r.2.1 < 4096 ∧ r.2.2.1 < 4096 := by
  constructor
  · refine ⟨[Call.LocateProtocol kEfiEdidDiscoveredProtocolGuid], ?_⟩
    rw [GetPreferredResolution_success st x y hs hlen]
    have e1 : specHorizontal st.LocateProtocol.2 = h := by
      unfold specHorizontal
      rw [h56, h58]
      omega
    have e2 : specVertical st.LocateProtocol.2 = v := by
      unfold specVertical
      rw [h59, h61]
      omega
    rw [e1, e2]
  · intro st2 x2 y2 r hs2 hr
    by_cases hlen2 : 62 ≤ st2.LocateProtocol.2.length
    · rw [GetPreferredResolution_success st2 x2 y2 hs2 hlen2] at hr
      simp only [Option.some.injEq] at hr
      subst hr
      exact ⟨specHorizontal_lt _, specVertical_lt _⟩
    · rw [GetPreferredResolution_short st2 x2 y2 hs2 (by omega)] at hr
      simp at hr

/-- Witness for C4 with `h = 1920` and `v = 1080`. -/
theorem GetPreferredResolution_round_trip_witness :
    ∃ calls, GetPreferredResolution (firmwareOf edid1920x1080 scenarioModes) 0 0 =
      some (EFI_SUCCESS, 1920, 1080, calls) :=
  (GetPreferredResolution_round_trip (firmwareOf edid1920x1080 scenarioModes) 0 0 1920 1080
    (by decide) (by decide) (by decide) (by decide) (by decide) (by decide) (by decide)
    (by decide)).1

/-- C8: `GetPreferredResolution` returns the status of the discovery service
whenever it returns; on an error status it makes the one discovery call and
leaves `x` and `y` as they were; on a success status (block of at least 62
bytes) it overwrites both with the extracted values, whatever they held. -/
theorem GetPreferredResolution_status_frame (st : EFI_SYSTEM_TABLE) (x y : Nat) :
    (∀ r, GetPreferredResolution st x y = some r → r.1 = st.LocateProtocol.1) ∧
    (EFI_ERROR st.LocateProtocol.1 = true →
      GetPreferredResolution st x y = some (st.LocateProtocol.1, x, y,
        [Call.LocateProtocol kEfiEdidDiscoveredProtocolGuid])) ∧
    (EFI_ERROR st.LocateProtocol.1 = false → 62 ≤ st.LocateProtocol.2.length →
      GetPreferredResolution st x y = some (st.LocateProtocol.1,
        specHorizontal st.LocateProtocol.2, specVertical st.LocateProtocol.2,
        [Call.LocateProtocol kEfiEdidDiscoveredProtocolGuid])) := by
  refine ⟨?_, GetPreferredResolution_error st x y, GetPreferredResolution_success st x y⟩
  intro r hr
  cases hs : EFI_ERROR st.LocateProtocol.1
  · by_cases hlen : 62 ≤ st.LocateProtocol.2.length
    · rw [GetPreferredResolution_success st x y hs hlen] at hr
      simp only [Option.some.injEq] at hr
      rw [← hr]
    · rw [GetPreferredResolution_short st x y hs (by omega)] at hr
      simp at hr
  · rw [GetPreferredResolution_error st x y hs] at hr
    simp only [Option.some.injEq] at hr
    rw [← hr]

/-- Witness for C8: without a monitor descriptor the outputs 5 and 6 stay. -/
theorem GetPreferredResolution_status_frame_witness :
    GetPreferredResolution firmwareNoEdid 5 6 = some (0x800000000000000E, 5, 6,
        [Call.LocateProtocol kEfiEdidDiscoveredProtocolGuid]) :=
  (GetPreferredResolution_status_frame firmwareNoEdid 5 6).2.1 (by decide)

/-! ## The compatibility filter -/

/-- C2: `CheckGopInfo` returns `EFI_SUCCESS` exactly when the pixel format is
`PixelBlueGreenRedReserved8BitPerColor` and the horizontal resolution equals
the pixels per scan line, and returns the one status `EFI_UNSUPPORTED`, an
error status, in every other case. -/
theorem CheckGopInfo_iff (info : EFI_GRAPHICS_OUTPUT_MODE_INFORMATION) :
    (CheckGopInfo info = EFI_SUCCESS ↔
      (info.PixelFormat = PixelBlueGreenRedReserved8BitPerColor ∧
        info.HorizontalResolution = info.PixelsPerScanLine)) ∧
    (CheckGopInfo info = EFI_UNSUPPORTED ↔
      ¬ (info.PixelFormat = PixelBlueGreenRedReserved8BitPerColor ∧
        info.HorizontalResolution = info.PixelsPerScanLine)) ∧
    EFI_ERROR EFI_UNSUPPORTED = true ∧ EFI_ERROR EFI_SUCCESS = false := by
  unfold CheckGopInfo
  refine ⟨?_, ?_, by decide, by decide⟩
  · by_cases h1 : info.PixelFormat = PixelBlueGreenRedReserved8BitPerColor <;>
      by_cases h2 : info.HorizontalResolution = info.PixelsPerScanLine <;>
      simp [h1, h2, EFI_SUCCESS, EFI_UNSUPPORTED]
  · by_cases h1 : info.PixelFormat = PixelBlueGreenRedReserved8BitPerColor <;>
      by_cases h2 : info.HorizontalResolution = info.PixelsPerScanLine <;>
      simp [h1, h2, EFI_SUCCESS, EFI_UNSUPPORTED]


/-! ## Console output -/

lemma cstr_terminated (s rest : List CHAR16) (hs : 0 ∉ s) : cstr (s ++ 0 :: rest) = s := by
  induction s with
  | nil => simp [cstr]
  | cons c t ih =>
    have hc : c ≠ 0 := fun h => hs (by simp [h])
    have ht : 0 ∉ t := fun h => hs (by simp [h])
    have := ih ht
    have hb : (c != 0) = true := by simpa using hc
    simp only [cstr] at this ⊢
    simp [List.takeWhile_cons, hb, this]

lemma consoleText_Print (mem : List CHAR16) : consoleText (Print mem) = crlf (cstr mem) := by
  induction mem with
  | nil => simp [Print, consoleText, cstr, crlf]
  | cons c t ih =>
    by_cases h0 : c = 0
    · simp [Print, h0, consoleText, cstr, crlf]
    · by_cases h10 : c = 10
      · subst h10
        simp only [cstr] at ih
        simp [Print, consoleText, cstr, crlf, List.takeWhile_cons, ih]
      · have hb : (c != 0) = true := by simpa using h0
        simp only [cstr] at ih
        simp [Print, h0, h10, consoleText, cstr, crlf, List.takeWhile_cons, hb, ih]

lemma crlf_append (a b : List CHAR16) : crlf (a ++ b) = crlf a ++ crlf b := by
  induction a with
  | nil => simp [crlf]
  | cons c t ih => by_cases h : c = 10 <;> simp [crlf, h, ih]

lemma crlf_of_no_lf (s : List CHAR16) (h : 10 ∉ s) : crlf s = s := by
  induction s with
  | nil => simp [crlf]
  | cons c t ih =>
    have hc : c ≠ 10 := fun e => h (by simp [e])
    have ht : 10 ∉ t := fun e => h (by simp [e])
    simp [crlf, hc, ih ht]

lemma Print_only_OutputString (mem : List CHAR16) :
    ∀ c ∈ Print mem, ∃ str, c = Call.OutputString str := by
  induction mem with
  | nil => simp [Print]
  | cons c t ih =>
    by_cases h0 : c = 0
    · simp [Print, h0]
    · intro d hd
      have hd2 : (∃ str, d = Call.OutputString str) ∨ d ∈ Print t := by
        by_cases h10 : c = 10
        · subst h10
          simp [Print] at hd
          exact hd.imp (fun e => ⟨_, e⟩) id
        · simp only [Print, h0, h10, if_false, List.mem_cons] at hd
          exact hd.imp (fun e => ⟨_, e⟩) id
      exact hd2.elim id (ih d)

/-- C9: for a string `s` without a zero unit, stored with its terminator, the
texts `Print` hands to `OutputString`, concatenated in call order, are `s` with
every line feed replaced by carriage return and line feed; so a line feed of
`s` comes out with a carriage return right before it, a string without line
feed comes out unchanged, and `Print` calls no other service. -/
theorem Print_console_text (s rest : List CHAR16) (hs : 0 ∉ s) :
    consoleText (Print (s ++ 0 :: rest)) = crlf s ∧
    (∀ a b, s = a ++ 10 :: b →
      consoleText (Print (s ++ 0 :: rest)) = crlf a ++ 13 :: 10 :: crlf b) ∧
    (10 ∉ s → consoleText (Print (s ++ 0 :: rest)) = s) ∧
    (∀ c ∈ Print (s ++ 0 :: rest), ∃ str, c = Call.OutputString str) := by
  have h := consoleText_Print (s ++ 0 :: rest)
  rw [cstr_terminated s rest hs] at h
  refine ⟨h, ?_, ?_, Print_only_OutputString _⟩
  · intro a b e
    rw [h, e, crlf_append]
    simp [crlf]
  · intro hlf
    rw [h, crlf_of_no_lf s hlf]

/-- Witness for C9 on the text `a`, line feed, `b`. -/
theorem Print_console_text_witness :
    consoleText (Print ([97, 10, 98] ++ 0 :: [99])) = crlf [97, 10, 98] ∧
      crlf [97, 10, 98] = [97, 13, 10, 98] :=
  ⟨(Print_console_text [97, 10, 98] [99] (by decide)).1, by decide⟩

/-! ## Memory reservation -/

/-- C10: `AllocateMemoryForOS` issues one fixed-address request for 512 pages
at `0x00100000`; the address is a multiple of 4096 and below 4 MiB, the pages
make exactly 2 MiB, and the byte range is `0x00100000` to `0x002FFFFF`
inclusive, all of it below 4 MiB. -/
theorem AllocateMemoryForOS_request (st : EFI_SYSTEM_TABLE) :
    (AllocateMemoryForOS st kPhysicalAddressOS).2.2 =
      [Call.AllocatePages EFI_ALLOCATE_TYPE.AllocateAddress EFI_MEMORY_TYPE.EfiLoaderData
        512 0x00100000] ∧
    kPhysicalAddressOS % 4096 = 0 ∧
    kPhysicalAddressOS < 0x400000 ∧
    kNumPagesForOS * 4096 = 2 * 1024 * 1024 ∧
    (∀ a : Nat, (kPhysicalAddressOS ≤ a ∧ a < kPhysicalAddressOS + kNumPagesForOS * 4096) ↔
      (0x00100000 ≤ a ∧ a ≤ 0x002FFFFF)) ∧
    kPhysicalAddressOS + kNumPagesForOS * 4096 ≤ 0x400000 := by
  refine ⟨rfl, by decide, by decide, by decide, ?_, by decide⟩
  intro a
  have hA : kPhysicalAddressOS = 1048576 := rfl
  have hN : kNumPagesForOS = 512 := rfl
  rw [hA, hN]
  constructor
  · rintro ⟨h1, h2⟩
    constructor <;> omega
  · rintro ⟨h1, h2⟩
    constructor <;> omega


/-! ## Display mode negotiation -/

lemma setModeCalls_append (a b : List Call) :
    setModeCalls (a ++ b) = setModeCalls a ++ setModeCalls b := by
  induction a with
  | nil => simp [setModeCalls]
  | cons c t ih => cases c <;> simp [setModeCalls, ih]

lemma setModeCalls_Print (mem : List CHAR16) : setModeCalls (Print mem) = [] := by
  induction mem with
  | nil => simp [Print, setModeCalls]
  | cons c t ih =>
    by_cases h0 : c = 0
    · simp [Print, h0, setModeCalls]
    · by_cases h10 : c = 10
      · subst h10
        simp [Print, setModeCalls, ih]
      · simp [Print, h0, h10, setModeCalls, ih]

lemma setModeCalls_eq_nil (calls : List Call) (h : setModeCalls calls = []) :
    ∀ i, Call.SetMode i ∉ calls := by
  induction calls with
  | nil => simp
  | cons c t ih =>
    cases c <;> simp_all [setModeCalls]

lemma isEnumeration_Print (mem : List CHAR16) : ∀ c ∈ Print mem, isEnumeration c = false := by
  intro c hc
  obtain ⟨str, rfl⟩ := Print_only_OutputString mem c hc
  rfl

lemma CheckGopInfo_ok_iff (info : EFI_GRAPHICS_OUTPUT_MODE_INFORMATION) :
    EFI_ERROR (CheckGopInfo info) = false ↔
      (info.PixelFormat = PixelBlueGreenRedReserved8BitPerColor ∧
        info.HorizontalResolution = info.PixelsPerScanLine) := by
  unfold CheckGopInfo
  by_cases h1 : info.PixelFormat = PixelBlueGreenRedReserved8BitPerColor <;>
    by_cases h2 : info.HorizontalResolution = info.PixelsPerScanLine <;>
    simp [h1, h2, EFI_SUCCESS, EFI_UNSUPPORTED, EFI_ERROR]

lemma modeMatches_iff (px py : Nat) (info : EFI_GRAPHICS_OUTPUT_MODE_INFORMATION) :
    modeMatches px py info = true ↔
      (EFI_ERROR (CheckGopInfo info) = false ∧ info.HorizontalResolution = px ∧
        info.VerticalResolution = py) := by
  simp [modeMatches, and_assoc]

lemma modeMatches_eq_false_iff (px py : Nat) (info : EFI_GRAPHICS_OUTPUT_MODE_INFORMATION) :
    modeMatches px py info = false ↔
      ¬ (EFI_ERROR (CheckGopInfo info) = false ∧ info.HorizontalResolution = px ∧
        info.VerticalResolution = py) := by
  rw [← modeMatches_iff]
  simp

lemma InitGopLoop_exhausted (img : BootImage) (gop : EFI_GRAPHICS_OUTPUT_PROTOCOL)
    (px py : Nat) (hmax : gop.MaxMode < 2 ^ 32) :
    ∀ fuel i, i ≤ gop.MaxMode → gop.MaxMode - i < fuel →
      (∀ j, i ≤ j → j < gop.MaxMode → modeMatches px py (gop.QueryMode j).2 = false) →
      ∃ calls, InitGopLoop img gop px py fuel i = some (EFI_UNSUPPORTED, calls) ∧
        setModeCalls calls = [] := by
  intro fuel
  induction fuel with
  | zero => intro i _ h; omega
  | succ n ih =>
    intro i hi hf hno
    by_cases hlt : i < gop.MaxMode
    · have hm := hno i le_rfl hlt
      have hmod : (i + 1) % 4294967296 = i + 1 := Nat.mod_eq_of_lt (by omega)
      obtain ⟨calls, hc, hs⟩ :=
        ih (i + 1) (by omega) (by omega) (fun j hj hj2 => hno j (by omega) hj2)
      refine ⟨Call.QueryMode i :: Print (img.OSSPrintf (wide "(%d, %d)\n")
          [(gop.QueryMode i).2.HorizontalResolution, (gop.QueryMode i).2.VerticalResolution])
          ++ calls, ?_, ?_⟩
      · simp [InitGopLoop, hlt, hm, hmod, hc]
      · simp [setModeCalls, setModeCalls_append, setModeCalls_Print, hs]
    · refine ⟨Print (wide "Error: Preferred video mode not available\n"), ?_, ?_⟩
      · simp [InitGopLoop, hlt]
      · exact setModeCalls_Print _

lemma InitGopLoop_first_match (img : BootImage) (gop : EFI_GRAPHICS_OUTPUT_PROTOCOL)
    (px py : Nat) (hmax : gop.MaxMode < 2 ^ 32) (k : Nat) (hk : k < gop.MaxMode)
    (hmatch : modeMatches px py (gop.QueryMode k).2 = true) :
    ∀ fuel i, i ≤ k → k - i < fuel →
      (∀ j, i ≤ j → j < k → modeMatches px py (gop.QueryMode j).2 = false) →
      ∃ calls, InitGopLoop img gop px py fuel i = some (EFI_SUCCESS, calls) ∧
        setModeCalls calls = [k] := by
  intro fuel
  induction fuel with
  | zero => intro i _ h; omega
  | succ n ih =>
    intro i hi hf hno
    have hlt : i < gop.MaxMode := by omega
    by_cases hik : i = k
    · subst hik
      refine ⟨Call.QueryMode i :: Print (img.OSSPrintf (wide "(%d, %d)\n")
          [(gop.QueryMode i).2.HorizontalResolution, (gop.QueryMode i).2.VerticalResolution])
          ++ Call.SetMode i :: Print (wide "Set GOP.\n"), ?_, ?_⟩
      · simp [InitGopLoop, hlt, hmatch]
      · simp [setModeCalls, setModeCalls_append, setModeCalls_Print]
    · have hm := hno i le_rfl (by omega)
      have hmod : (i + 1) % 4294967296 = i + 1 := Nat.mod_eq_of_lt (by omega)
      obtain ⟨calls, hc, hs⟩ :=
        ih (i + 1) (by omega) (by omega) (fun j hj hj2 => hno j (by omega) hj2)
      refine ⟨Call.QueryMode i :: Print (img.OSSPrintf (wide "(%d, %d)\n")
          [(gop.QueryMode i).2.HorizontalResolution, (gop.QueryMode i).2.VerticalResolution])
          ++ calls, ?_, ?_⟩
      · simp [InitGopLoop, hlt, hm, hmod, hc]
      · simp [setModeCalls, setModeCalls_append, setModeCalls_Print, hs]

lemma InitGopLoop_success_inv (img : BootImage) (gop : EFI_GRAPHICS_OUTPUT_PROTOCOL)
    (px py : Nat) :
    ∀ fuel i calls, InitGopLoop img gop px py fuel i = some (EFI_SUCCESS, calls) →
      ∃ k, k < gop.MaxMode ∧ modeMatches px py (gop.QueryMode k).2 = true ∧
        setModeCalls calls = [k] := by
  intro fuel
  induction fuel with
  | zero => intro i calls h; simp [InitGopLoop] at h
  | succ n ih =>
    intro i calls h
    by_cases hlt : i < gop.MaxMode
    · cases hm : modeMatches px py (gop.QueryMode i).2
      · simp only [InitGopLoop, hlt, if_true, hm] at h
        cases hrec : InitGopLoop img gop px py n ((i + 1) % 2 ^ 32) with
        | none => rw [hrec] at h; simp at h
        | some r =>
          obtain ⟨status, rest⟩ := r
          rw [hrec] at h
          have h3 : status = EFI_SUCCESS ∧ Call.QueryMode i ::
              (Print (img.OSSPrintf (wide "(%d, %d)\n")
                [(gop.QueryMode i).2.HorizontalResolution,
                  (gop.QueryMode i).2.VerticalResolution]) ++ rest) = calls := by
            simpa using h
          obtain ⟨h1, h2⟩ := h3
          subst h1
          obtain ⟨k, hk, hkm, hks⟩ := ih _ _ hrec
          refine ⟨k, hk, hkm, ?_⟩
          rw [← h2]
          simp [setModeCalls, setModeCalls_append, setModeCalls_Print, hks]
      · simp [InitGopLoop, hlt, hm] at h
        refine ⟨i, hlt, hm, ?_⟩
        rw [← h]
        simp [setModeCalls, setModeCalls_append, setModeCalls_Print]
    · simp [InitGopLoop, hlt, EFI_UNSUPPORTED, EFI_SUCCESS] at h


lemma EFI_ERROR_ne_success (s : EFI_STATUS) (h : EFI_ERROR s = true) : s ≠ EFI_SUCCESS := by
  intro e
  rw [e] at h
  exact absurd h (by decide)

lemma GetPreferredResolution_result (st : EFI_SYSTEM_TABLE) (x y : Nat)
    (r : EFI_STATUS × Nat × Nat × List Call) (h : GetPreferredResolution st x y = some r) :
    r.1 = st.LocateProtocol.1 ∧
      r.2.2.2 = [Call.LocateProtocol kEfiEdidDiscoveredProtocolGuid] := by
  cases hs : EFI_ERROR st.LocateProtocol.1
  · by_cases hlen : 62 ≤ st.LocateProtocol.2.length
    · rw [GetPreferredResolution_success st x y hs hlen] at h
      simp only [Option.some.injEq] at h
      rw [← h]
      exact ⟨rfl, rfl⟩
    · rw [GetPreferredResolution_short st x y hs (by omega)] at h
      simp at h
  · rw [GetPreferredResolution_error st x y hs] at h
    simp only [Option.some.injEq] at h
    rw [← h]
    exact ⟨rfl, rfl⟩

/-- The calls `InitGop` makes before its loop when every earlier step
succeeded. -/
lemma InitGop_enumerating (img : BootImage) (ImageHandle : EFI_HANDLE)
    (st : EFI_SYSTEM_TABLE) (s : EFI_STATUS) (px py : Nat) (c0 : List Call)
    (handle : EFI_HANDLE)
    (hpref : GetPreferredResolution st 0 0 = some (s, px, py, c0))
    (hs : EFI_ERROR s = false)
    (hloc : EFI_ERROR st.LocateHandleBuffer.1 = false)
    (hh : st.LocateHandleBuffer.2[0]? = some handle)
    (hopen : EFI_ERROR (st.OpenProtocol handle).1 = false) :
    ∃ head, setModeCalls head = [] ∧
      InitGop img ImageHandle st =
        (InitGopLoop img (st.OpenProtocol handle).2 px py
          ((st.OpenProtocol handle).2.MaxMode + 1) 0).map (fun r => (r.1, head ++ r.2)) := by
  have hc0 := (GetPreferredResolution_result st 0 0 _ hpref).2
  simp only at hc0
  subst hc0
  refine ⟨[Call.LocateProtocol kEfiEdidDiscoveredProtocolGuid]
      ++ [Call.LocateHandleBuffer kEfiGraphicsOutputProtocolGuid]
      ++ [Call.OpenProtocol handle kEfiGraphicsOutputProtocolGuid ImageHandle]
      ++ Print (wide "GOP Found.\n")
      ++ Print (img.OSSPrintf (wide "Mode: %d\n") [(st.OpenProtocol handle).2.Mode])
      ++ Print (img.OSSPrintf (wide "Preferred x: %d\n") [px])
      ++ Print (img.OSSPrintf (wide "Preferred y: %d\n") [py]), ?_, ?_⟩
  · simp [setModeCalls, setModeCalls_append, setModeCalls_Print]
  · simp only [InitGop, hpref, hs, hloc, hh, hopen]
    cases InitGopLoop img (st.OpenProtocol handle).2 px py
        ((st.OpenProtocol handle).2.MaxMode + 1) 0 with
    | none => simp
    | some r => simp


/-- C1: let discovery succeed with the preferred pair `(px, py)`, the graphics
handle be located and opened, and `MaxMode` fit 32 bits. If `i` is the lowest
ordinal below `MaxMode` whose descriptor passes `CheckGopInfo` and has the
resolution `(px, py)`, then `InitGop` returns `EFI_SUCCESS` and its one
`SetMode` call is for `i`; if no ordinal below `MaxMode` is such, `InitGop`
returns `EFI_UNSUPPORTED` and calls `SetMode` not at all. `MaxMode` may be any
number, zero included. -/
theorem InitGop_commits_lowest_match (img : BootImage) (ImageHandle : EFI_HANDLE)
    (st : EFI_SYSTEM_TABLE) (s : EFI_STATUS) (px py : Nat) (c0 : List Call)
    (handle : EFI_HANDLE)
    (hpref : GetPreferredResolution st 0 0 = some (s, px, py, c0))
    (hs : EFI_ERROR s = false)
    (hloc : EFI_ERROR st.LocateHandleBuffer.1 = false)
    (hh : st.LocateHandleBuffer.2[0]? = some handle)
    (hopen : EFI_ERROR (st.OpenProtocol handle).1 = false)
    (hmax : (st.OpenProtocol handle).2.MaxMode < 2 ^ 32) :
    (∀ i, i < (st.OpenProtocol handle).2.MaxMode →
      (EFI_ERROR (CheckGopInfo ((st.OpenProtocol handle).2.QueryMode i).2) = false ∧
        ((st.OpenProtocol handle).2.QueryMode i).2.HorizontalResolution = px ∧
        ((st.OpenProtocol handle).2.QueryMode i).2.VerticalResolution = py) →
      (∀ j, j < i →
        ¬ (EFI_ERROR (CheckGopInfo ((st.OpenProtocol handle).2.QueryMode j).2) = false ∧
          ((st.OpenProtocol handle).2.QueryMode j).2.HorizontalResolution = px ∧
          ((st.OpenProtocol handle).2.QueryMode j).2.VerticalResolution = py)) →
      ∃ calls, InitGop img ImageHandle st = some (EFI_SUCCESS, calls) ∧
        setModeCalls calls = [i]) ∧
    ((∀ i, i < (st.OpenProtocol handle).2.MaxMode →
        ¬ (EFI_ERROR (CheckGopInfo ((st.OpenProtocol handle).2.QueryMode i).2) = false ∧
          ((st.OpenProtocol handle).2.QueryMode i).2.HorizontalResolution = px ∧
          ((st.OpenProtocol handle).2.QueryMode i).2.VerticalResolution = py)) →
      ∃ calls, InitGop img ImageHandle st = some (EFI_UNSUPPORTED, calls) ∧
        setModeCalls calls = []) := by
  obtain ⟨head, hhead, hinit⟩ :=
    InitGop_enumerating img ImageHandle st s px py c0 handle hpref hs hloc hh hopen
  constructor
  · intro i hi hm hlow
    obtain ⟨calls, hc, hset⟩ :=
      InitGopLoop_first_match img (st.OpenProtocol handle).2 px py hmax i hi
        ((modeMatches_iff _ _ _).2 hm) ((st.OpenProtocol handle).2.MaxMode + 1) 0
        (Nat.zero_le _) (by omega)
        (fun j _ hj => (modeMatches_eq_false_iff _ _ _).2 (hlow j hj))
    refine ⟨head ++ calls, ?_, ?_⟩
    · rw [hinit, hc]
      rfl
    · rw [setModeCalls_append, hhead, hset]
      rfl
  · intro hno
    obtain ⟨calls, hc, hset⟩ :=
      InitGopLoop_exhausted img (st.OpenProtocol handle).2 px py hmax
        ((st.OpenProtocol handle).2.MaxMode + 1) 0 (Nat.zero_le _) (by omega)
        (fun j _ hj => (modeMatches_eq_false_iff _ _ _).2 (hno j hj))
    refine ⟨head ++ calls, ?_, ?_⟩
    · rw [hinit, hc]
      rfl
    · rw [setModeCalls_append, hhead, hset]
      rfl

/-- Witness for C1: preferred 1920 by 1080 and the three modes of the first
scenario commit ordinal 0. -/
theorem InitGop_commits_lowest_match_witness :
    ∃ calls, InitGop plainImage 1 (firmwareOf edid1920x1080 scenarioModes) =
        some (EFI_SUCCESS, calls) ∧ setModeCalls calls = [0] :=
  (InitGop_commits_lowest_match plainImage 1 (firmwareOf edid1920x1080 scenarioModes)
    EFI_SUCCESS 1920 1080 [Call.LocateProtocol kEfiEdidDiscoveredProtocolGuid] 7
    (by decide) (by decide) (by decide) (by decide) (by decide) (by decide)).1 0
    (by decide) (by decide) (by decide)

/-- C5: whenever `InitGop` returns `EFI_SUCCESS`, discovery gave a preferred
pair, a handle was opened, and `SetMode` was called exactly once, for an
ordinal below `MaxMode` whose descriptor has the pixel format
`PixelBlueGreenRedReserved8BitPerColor`, a horizontal resolution equal to its
pixels per scan line, and the preferred pair as its resolution. -/
theorem InitGop_committed_invariant (img : BootImage) (ImageHandle : EFI_HANDLE)
    (st : EFI_SYSTEM_TABLE) (calls : List Call)
    (h : InitGop img ImageHandle st = some (EFI_SUCCESS, calls)) :
    ∃ s px py c0 handle k,
      GetPreferredResolution st 0 0 = some (s, px, py, c0) ∧
      st.LocateHandleBuffer.2[0]? = some handle ∧
      setModeCalls calls = [k] ∧
      k < (st.OpenProtocol handle).2.MaxMode ∧
      ((st.OpenProtocol handle).2.QueryMode k).2.PixelFormat =
        PixelBlueGreenRedReserved8BitPerColor ∧
      ((st.OpenProtocol handle).2.QueryMode k).2.HorizontalResolution =
        ((st.OpenProtocol handle).2.QueryMode k).2.PixelsPerScanLine ∧
      ((st.OpenProtocol handle).2.QueryMode k).2.HorizontalResolution = px ∧
      ((st.OpenProtocol handle).2.QueryMode k).2.VerticalResolution = py := by
  cases hpref : GetPreferredResolution st 0 0 with
  | none => simp [InitGop, hpref] at h
  | some r =>
    obtain ⟨s, px, py, c0⟩ := r
    cases hs : EFI_ERROR s
    · cases hloc : EFI_ERROR st.LocateHandleBuffer.1
      · cases hh : st.LocateHandleBuffer.2[0]? with
        | none => simp [InitGop, hpref, hs, hloc, hh] at h
        | some handle =>
          cases hopen : EFI_ERROR (st.OpenProtocol handle).1
          · obtain ⟨head, hhead, hinit⟩ :=
              InitGop_enumerating img ImageHandle st s px py c0 handle hpref hs hloc hh hopen
            rw [hinit] at h
            cases hloop : InitGopLoop img (st.OpenProtocol handle).2 px py
                ((st.OpenProtocol handle).2.MaxMode + 1) 0 with
            | none => rw [hloop] at h; simp at h
            | some r =>
              obtain ⟨status, rest⟩ := r
              rw [hloop] at h
              have h3 : status = EFI_SUCCESS ∧ head ++ rest = calls := by simpa using h
              obtain ⟨h1, h2⟩ := h3
              subst h1
              obtain ⟨k, hk, hkm, hks⟩ := InitGopLoop_success_inv _ _ _ _ _ _ _ hloop
              have hm := (modeMatches_iff _ _ _).1 hkm
              have hc := (CheckGopInfo_ok_iff _).1 hm.1
              refine ⟨s, px, py, c0, handle, k, rfl, rfl, ?_, hk, hc.1, hc.2, hm.2.1, hm.2.2⟩
              rw [← h2, setModeCalls_append, hhead, hks]
              rfl
          · have h3 : (st.OpenProtocol handle).1 = EFI_SUCCESS := by
              simp [InitGop, hpref, hs, hloc, hh, hopen] at h
              exact h.1
            exact absurd h3 (EFI_ERROR_ne_success _ hopen)
      · have h3 : st.LocateHandleBuffer.1 = EFI_SUCCESS := by
          simp [InitGop, hpref, hs, hloc] at h
          exact h.1
        exact absurd h3 (EFI_ERROR_ne_success _ hloc)
    · have h3 : s = EFI_SUCCESS := by
        simp [InitGop, hpref, hs] at h
        exact h.1
      exact absurd h3 (EFI_ERROR_ne_success _ hs)

/-- Witness for C5 on the first scenario. -/
theorem InitGop_committed_invariant_witness :
    ∃ s px py c0 handle k,
      GetPreferredResolution (firmwareOf edid1920x1080 scenarioModes) 0 0 =
        some (s, px, py, c0) ∧
      (firmwareOf edid1920x1080 scenarioModes).LocateHandleBuffer.2[0]? = some handle ∧
      setModeCalls scenarioCalls = [k] ∧
      k < ((firmwareOf edid1920x1080 scenarioModes).OpenProtocol handle).2.MaxMode ∧
      (((firmwareOf edid1920x1080 scenarioModes).OpenProtocol handle).2.QueryMode k).2.PixelFormat =
        PixelBlueGreenRedReserved8BitPerColor ∧
      (((firmwareOf edid1920x1080 scenarioModes).OpenProtocol
          handle).2.QueryMode k).2.HorizontalResolution =
        (((firmwareOf edid1920x1080 scenarioModes).OpenProtocol
          handle).2.QueryMode k).2.PixelsPerScanLine ∧
      (((firmwareOf edid1920x1080 scenarioModes).OpenProtocol
          handle).2.QueryMode k).2.HorizontalResolution = px ∧
      (((firmwareOf edid1920x1080 scenarioModes).OpenProtocol
          handle).2.QueryMode k).2.VerticalResolution = py :=
  InitGop_committed_invariant plainImage 1 (firmwareOf edid1920x1080 scenarioModes)
    scenarioCalls (by decide)


/-- C6: no fallback. Let discovery succeed with the preferred pair `(px, py)`,
the graphics handle be located and opened, and `MaxMode` fit 32 bits. If no
descriptor below `MaxMode` both passes `CheckGopInfo` and has the resolution
`(px, py)`, then `InitGop` returns `EFI_UNSUPPORTED` and no `SetMode` call is
among the calls it made, whatever other modes the device offers. -/
theorem InitGop_no_fallback (img : BootImage) (ImageHandle : EFI_HANDLE)
    (st : EFI_SYSTEM_TABLE) (s : EFI_STATUS) (px py : Nat) (c0 : List Call)
    (handle : EFI_HANDLE)
    (hpref : GetPreferredResolution st 0 0 = some (s, px, py, c0))
    (hs : EFI_ERROR s = false)
    (hloc : EFI_ERROR st.LocateHandleBuffer.1 = false)
    (hh : st.LocateHandleBuffer.2[0]? = some handle)
    (hopen : EFI_ERROR (st.OpenProtocol handle).1 = false)
    (hmax : (st.OpenProtocol handle).2.MaxMode < 2 ^ 32)
    (hno : ∀ i, i < (st.OpenProtocol handle).2.MaxMode →
      ¬ (EFI_ERROR (CheckGopInfo ((st.OpenProtocol handle).2.QueryMode i).2) = false ∧
        ((st.OpenProtocol handle).2.QueryMode i).2.HorizontalResolution = px ∧
        ((st.OpenProtocol handle).2.QueryMode i).2.VerticalResolution = py)) :
    ∃ calls, InitGop img ImageHandle st = some (EFI_UNSUPPORTED, calls) ∧
      ∀ i, Call.SetMode i ∉ calls := by
  obtain ⟨head, hhead, hinit⟩ :=
    InitGop_enumerating img ImageHandle st s px py c0 handle hpref hs hloc hh hopen
  obtain ⟨calls, hc, hset⟩ :=
    InitGopLoop_exhausted img (st.OpenProtocol handle).2 px py hmax
      ((st.OpenProtocol handle).2.MaxMode + 1) 0 (Nat.zero_le _) (by omega)
      (fun j _ hj => (modeMatches_eq_false_iff _ _ _).2 (hno j hj))
  refine ⟨head ++ calls, ?_, ?_⟩
  · rw [hinit, hc]
    rfl
  · apply setModeCalls_eq_nil
    rw [setModeCalls_append, hhead, hset]
    rfl

/-- Witness for C6: preferred 1920 by 1080 and the single padded mode
1920 by 1080 with 2048 pixels per scan line. -/
theorem InitGop_no_fallback_witness :
    ∃ calls, InitGop plainImage 1 (firmwareOf edid1920x1080 [bgr8 1920 1080 2048]) =
        some (EFI_UNSUPPORTED, calls) ∧ ∀ i, Call.SetMode i ∉ calls :=
  InitGop_no_fallback plainImage 1 (firmwareOf edid1920x1080 [bgr8 1920 1080 2048])
    EFI_SUCCESS 1920 1080 [Call.LocateProtocol kEfiEdidDiscoveredProtocolGuid] 7
    (by decide) (by decide) (by decide) (by decide) (by decide) (by decide) (by decide)

/-- C7: if the discovery service answers with an error status, `InitGop`
returns that status, and the calls it made are the one discovery call and the
console calls of the diagnostic: none of `LocateHandleBuffer`, `OpenProtocol`,
`QueryMode`, `SetMode`. -/
theorem InitGop_timing_unknown (img : BootImage) (ImageHandle : EFI_HANDLE)
    (st : EFI_SYSTEM_TABLE) (hs : EFI_ERROR st.LocateProtocol.1 = true) :
    InitGop img ImageHandle st = some (st.LocateProtocol.1,
      Call.LocateProtocol kEfiEdidDiscoveredProtocolGuid ::
        Print (castCHAR16 img "Error: Could not get information from EDID.\n")) ∧
    ∀ c ∈ Call.LocateProtocol kEfiEdidDiscoveredProtocolGuid ::
        Print (castCHAR16 img "Error: Could not get information from EDID.\n"),
      isEnumeration c = false := by
  constructor
  · simp [InitGop, GetPreferredResolution_error st 0 0 hs, hs]
  · intro c hc
    rcases List.mem_cons.1 hc with rfl | hc
    · rfl
    · exact isEnumeration_Print _ c hc

/-- Witness for C7: a firmware without monitor descriptor. -/
theorem InitGop_timing_unknown_witness :
    (InitGop plainImage 1 firmwareNoEdid).map (fun r => r.1) = some 0x800000000000000E :=
  congrArg (Option.map (fun r => r.1)) (InitGop_timing_unknown plainImage 1 firmwareNoEdid
    (by decide)).1

/-! ## Timing extraction: determinism and bounds -/

lemma GetPreferredResolution_congr (st st2 : EFI_SYSTEM_TABLE) (x y : Nat)
    (hs : st2.LocateProtocol.1 = st.LocateProtocol.1)
    (h58 : st2.LocateProtocol.2[58]? = st.LocateProtocol.2[58]?)
    (h56 : st2.LocateProtocol.2[56]? = st.LocateProtocol.2[56]?)
    (h61 : st2.LocateProtocol.2[61]? = st.LocateProtocol.2[61]?)
    (h59 : st2.LocateProtocol.2[59]? = st.LocateProtocol.2[59]?) :
    GetPreferredResolution st2 x y = GetPreferredResolution st x y := by
  simp only [GetPreferredResolution, hs, h58, h56, h61, h59]

lemma getElem?_of_take_eq {α : Type} (l l2 : List α) (n i : Nat) (hi : i < n)
    (h : l2.take n = l.take n) : l2[i]? = l[i]? := by
  have h1 : (l2.take n)[i]? = l2[i]? := by rw [List.getElem?_take, if_pos hi]
  have h2 : (l.take n)[i]? = l[i]? := by rw [List.getElem?_take, if_pos hi]
  rw [← h1, ← h2, h]

/-- C15: timing extraction is deterministic and pure. Two runs in which
discovery succeeds with the same descriptor block of at least 64 bytes yield
the same pair, whatever the outputs held before and whatever the rest of the
firmware answers. -/
theorem GetPreferredResolution_deterministic (st1 st2 : EFI_SYSTEM_TABLE)
    (x1 y1 x2 y2 : Nat)
    (h1 : EFI_ERROR st1.LocateProtocol.1 = false)
    (h2 : EFI_ERROR st2.LocateProtocol.1 = false)
    (hlen : 64 ≤ st1.LocateProtocol.2.length)
    (heq : st2.LocateProtocol.2 = st1.LocateProtocol.2) :
    ∃ h v, (∃ c1, GetPreferredResolution st1 x1 y1 = some (st1.LocateProtocol.1, h, v, c1)) ∧
      (∃ c2, GetPreferredResolution st2 x2 y2 = some (st2.LocateProtocol.1, h, v, c2)) := by
  refine ⟨specHorizontal st1.LocateProtocol.2, specVertical st1.LocateProtocol.2,
    ⟨_, GetPreferredResolution_success st1 x1 y1 h1 (by omega)⟩, ?_⟩
  have h := GetPreferredResolution_success st2 x2 y2 h2 (by rw [heq]; omega)
  rw [heq] at h
  exact ⟨_, h⟩

/-- Witness for C15: the same block under two firmwares with different
devices, and different prior outputs. -/
theorem GetPreferredResolution_deterministic_witness :
    ∃ h v,
      (∃ c1, GetPreferredResolution (firmwareOf edid1920x1080 scenarioModes) 0 0 =
        some (EFI_SUCCESS, h, v, c1)) ∧
      (∃ c2, GetPreferredResolution (firmwareOf edid1920x1080 []) 640 480 =
        some (EFI_SUCCESS, h, v, c2)) :=
  GetPreferredResolution_deterministic (firmwareOf edid1920x1080 scenarioModes)
    (firmwareOf edid1920x1080 []) 0 0 640 480 (by decide) (by decide) (by decide) rfl

/-- C17: on a descriptor block of at least 64 bytes the four indices that
`GetPreferredResolution` reads, 56, 58, 59 and 61, are inside the block and
the function returns a result (the out-of-bounds branch is not taken); the
result depends on the first 62 bytes only; and the function has no length
check: on a success status with a block shorter than 62 bytes it reads outside
the block. -/
theorem GetPreferredResolution_in_bounds (st : EFI_SYSTEM_TABLE) (x y : Nat)
    (hlen : 64 ≤ st.LocateProtocol.2.length) :
    (st.LocateProtocol.2[56]?.isSome = true ∧ st.LocateProtocol.2[58]?.isSome = true ∧
      st.LocateProtocol.2[59]?.isSome = true ∧ st.LocateProtocol.2[61]?.isSome = true) ∧
    (GetPreferredResolution st x y).isSome = true ∧
    (∀ st2 : EFI_SYSTEM_TABLE, st2.LocateProtocol.1 = st.LocateProtocol.1 →
      st2.LocateProtocol.2.take 62 = st.LocateProtocol.2.take 62 →
      GetPreferredResolution st2 x y = GetPreferredResolution st x y) ∧
    (∀ (st3 : EFI_SYSTEM_TABLE) (x3 y3 : Nat), EFI_ERROR st3.LocateProtocol.1 = false →
      st3.LocateProtocol.2.length < 62 → GetPreferredResolution st3 x3 y3 = none) := by
  refine ⟨⟨?_, ?_, ?_, ?_⟩, ?_, ?_, ?_⟩
  · rw [getElem?_eq_some_getD _ 56 0 (by omega)]; rfl
  · rw [getElem?_eq_some_getD _ 58 0 (by omega)]; rfl
  · rw [getElem?_eq_some_getD _ 59 0 (by omega)]; rfl
  · rw [getElem?_eq_some_getD _ 61 0 (by omega)]; rfl
  · cases hs : EFI_ERROR st.LocateProtocol.1
    · rw [GetPreferredResolution_success st x y hs (by omega)]; rfl
    · rw [GetPreferredResolution_error st x y hs]; rfl
  · intro st2 hs2 htake
    exact GetPreferredResolution_congr st st2 x y hs2
      (getElem?_of_take_eq _ _ 62 58 (by omega) htake)
      (getElem?_of_take_eq _ _ 62 56 (by omega) htake)
      (getElem?_of_take_eq _ _ 62 61 (by omega) htake)
      (getElem?_of_take_eq _ _ 62 59 (by omega) htake)
  · intro st3 x3 y3 hs3 hshort
    exact GetPreferredResolution_short st3 x3 y3 hs3 hshort

/-- Witness for C17 on the 128-byte block of the first scenario. -/
theorem GetPreferredResolution_in_bounds_witness :
    (GetPreferredResolution (firmwareOf edid1920x1080 scenarioModes) 0 0).isSome = true :=
  (GetPreferredResolution_in_bounds (firmwareOf edid1920x1080 scenarioModes) 0 0
    (by decide)).2.1

/-! ## Enumeration order -/

lemma gopCalls_append (a b : List Call) : gopCalls (a ++ b) = gopCalls a ++ gopCalls b := by
  induction a with
  | nil => simp [gopCalls]
  | cons c t ih => cases c <;> simp [gopCalls, ih]

lemma gopCalls_Print (mem : List CHAR16) : gopCalls (Print mem) = [] := by
  induction mem with
  | nil => simp [Print, gopCalls]
  | cons c t ih =>
    by_cases h0 : c = 0
    · simp [Print, h0, gopCalls]
    · by_cases h10 : c = 10
      · subst h10
        simp [Print, gopCalls, ih]
      · simp [Print, h0, h10, gopCalls, ih]

/-- What the loop of `InitGop` does from ordinal `i` on when it has fuel
enough: it ends, either committing the first match at or after `i` or
exhausting the ordinals, and it queries the ordinals in ascending order. -/
lemma InitGopLoop_trace (img : BootImage) (gop : EFI_GRAPHICS_OUTPUT_PROTOCOL)
    (px py : Nat) (hmax : gop.MaxMode < 2 ^ 32) :
    ∀ fuel i, i ≤ gop.MaxMode → gop.MaxMode - i < fuel →
      ∃ status calls, InitGopLoop img gop px py fuel i = some (status, calls) ∧
        ((status = EFI_SUCCESS ∧ ∃ k, i ≤ k ∧ k < gop.MaxMode ∧
            modeMatches px py (gop.QueryMode k).2 = true ∧
            (∀ j, i ≤ j → j < k → modeMatches px py (gop.QueryMode j).2 = false) ∧
            gopCalls calls =
              (List.range' i (k + 1 - i)).map Call.QueryMode ++ [Call.SetMode k]) ∨
          (status = EFI_UNSUPPORTED ∧
            (∀ j, i ≤ j → j < gop.MaxMode → modeMatches px py (gop.QueryMode j).2 = false) ∧
            gopCalls calls = (List.range' i (gop.MaxMode - i)).map Call.QueryMode)) := by
  intro fuel
  induction fuel with
  | zero => intro i _ h; omega
  | succ n ih =>
    intro i hi hf
    by_cases hlt : i < gop.MaxMode
    · cases hm : modeMatches px py (gop.QueryMode i).2
      · have hmod : (i + 1) % 4294967296 = i + 1 := Nat.mod_eq_of_lt (by omega)
        obtain ⟨status, calls, hc, hcases⟩ := ih (i + 1) (by omega) (by omega)
        refine ⟨status, Call.QueryMode i :: Print (img.OSSPrintf (wide "(%d, %d)\n")
          [(gop.QueryMode i).2.HorizontalResolution, (gop.QueryMode i).2.VerticalResolution])
          ++ calls, ?_, ?_⟩
        · simp [InitGopLoop, hlt, hm, hmod, hc]
        · rcases hcases with ⟨hst, k, hik, hk, hkm, hlow, hg⟩ | ⟨hst, hno, hg⟩
          · left
            refine ⟨hst, k, by omega, hk, hkm, ?_, ?_⟩
            · intro j hj hjk
              by_cases hji : j = i
              · rw [hji]; exact hm
              · exact hlow j (by omega) hjk
            · have e : k + 1 - i = (k + 1 - (i + 1)) + 1 := by omega
              rw [e, List.range'_succ]
              simp [gopCalls, gopCalls_append, gopCalls_Print, hg]
          · right
            refine ⟨hst, ?_, ?_⟩
            · intro j hj hjk
              by_cases hji : j = i
              · rw [hji]; exact hm
              · exact hno j (by omega) hjk
            · have e : gop.MaxMode - i = (gop.MaxMode - (i + 1)) + 1 := by omega
              rw [e, List.range'_succ]
              simp [gopCalls, gopCalls_append, gopCalls_Print, hg]
      · refine ⟨EFI_SUCCESS, Call.QueryMode i :: Print (img.OSSPrintf (wide "(%d, %d)\n")
          [(gop.QueryMode i).2.HorizontalResolution, (gop.QueryMode i).2.VerticalResolution])
          ++ Call.SetMode i :: Print (wide "Set GOP.\n"), ?_, ?_⟩
        · simp [InitGopLoop, hlt, hm]
        · left
          refine ⟨rfl, i, le_rfl, hlt, hm, fun j h1 h2 => by omega, ?_⟩
          have e : i + 1 - i = 1 := by omega
          rw [e]
          simp [gopCalls, gopCalls_append, gopCalls_Print]
    · refine ⟨EFI_UNSUPPORTED, Print (wide "Error: Preferred video mode not available\n"),
        ?_, ?_⟩
      · simp [InitGopLoop, hlt]
      · right
        refine ⟨rfl, fun j h1 h2 => by omega, ?_⟩
        have e : gop.MaxMode - i = 0 := by omega
        rw [e]
        simp [gopCalls_Print]

lemma InitGop_enumerating_gopCalls (img : BootImage) (ImageHandle : EFI_HANDLE)
    (st : EFI_SYSTEM_TABLE) (s : EFI_STATUS) (px py : Nat) (c0 : List Call)
    (handle : EFI_HANDLE)
    (hpref : GetPreferredResolution st 0 0 = some (s, px, py, c0))
    (hs : EFI_ERROR s = false)
    (hloc : EFI_ERROR st.LocateHandleBuffer.1 = false)
    (hh : st.LocateHandleBuffer.2[0]? = some handle)
    (hopen : EFI_ERROR (st.OpenProtocol handle).1 = false) :
    ∃ head, gopCalls head = [] ∧
      InitGop img ImageHandle st =
        (InitGopLoop img (st.OpenProtocol handle).2 px py
          ((st.OpenProtocol handle).2.MaxMode + 1) 0).map (fun r => (r.1, head ++ r.2)) := by
  have hc0 := (GetPreferredResolution_result st 0 0 _ hpref).2
  simp only at hc0
  subst hc0
  refine ⟨[Call.LocateProtocol kEfiEdidDiscoveredProtocolGuid]
      ++ [Call.LocateHandleBuffer kEfiGraphicsOutputProtocolGuid]
      ++ [Call.OpenProtocol handle kEfiGraphicsOutputProtocolGuid ImageHandle]
      ++ Print (wide "GOP Found.\n")
      ++ Print (img.OSSPrintf (wide "Mode: %d\n") [(st.OpenProtocol handle).2.Mode])
      ++ Print (img.OSSPrintf (wide "Preferred x: %d\n") [px])
      ++ Print (img.OSSPrintf (wide "Preferred y: %d\n") [py]), ?_, ?_⟩
  · simp [gopCalls, gopCalls_append, gopCalls_Print]
  · simp only [InitGop, hpref, hs, hloc, hh, hopen]
    cases InitGopLoop img (st.OpenProtocol handle).2 px py
        ((st.OpenProtocol handle).2.MaxMode + 1) 0 with
    | none => simp
    | some r => simp

/-- C16: let discovery, handle location and open succeed and `MaxMode` fit 32
bits. Then `InitGop` returns (its loop ends), and its `QueryMode` and `SetMode`
calls are, in call order: either `QueryMode 0`, ..., `QueryMode k` followed by
the one `SetMode k`, with status `EFI_SUCCESS`, for an ordinal `k` below
`MaxMode`; or `QueryMode 0`, ..., `QueryMode (MaxMode - 1)` and no `SetMode`,
with status `EFI_UNSUPPORTED`. -/
theorem InitGop_enumeration_order (img : BootImage) (ImageHandle : EFI_HANDLE)
    (st : EFI_SYSTEM_TABLE) (s : EFI_STATUS) (px py : Nat) (c0 : List Call)
    (handle : EFI_HANDLE)
    (hpref : GetPreferredResolution st 0 0 = some (s, px, py, c0))
    (hs : EFI_ERROR s = false)
    (hloc : EFI_ERROR st.LocateHandleBuffer.1 = false)
    (hh : st.LocateHandleBuffer.2[0]? = some handle)
    (hopen : EFI_ERROR (st.OpenProtocol handle).1 = false)
    (hmax : (st.OpenProtocol handle).2.MaxMode < 2 ^ 32) :
    ∃ status calls, InitGop img ImageHandle st = some (status, calls) ∧
      ((status = EFI_SUCCESS ∧ ∃ k, k < (st.OpenProtocol handle).2.MaxMode ∧
          gopCalls calls = (List.range (k + 1)).map Call.QueryMode ++ [Call.SetMode k]) ∨
        (status = EFI_UNSUPPORTED ∧
          gopCalls calls =
            (List.range (st.OpenProtocol handle).2.MaxMode).map Call.QueryMode)) := by
  obtain ⟨head, hhead, hinit⟩ :=
    InitGop_enumerating_gopCalls img ImageHandle st s px py c0 handle hpref hs hloc hh hopen
  obtain ⟨status, calls, hc, hcases⟩ :=
    InitGopLoop_trace img (st.OpenProtocol handle).2 px py hmax
      ((st.OpenProtocol handle).2.MaxMode + 1) 0 (Nat.zero_le _) (by omega)
  refine ⟨status, head ++ calls, ?_, ?_⟩
  · rw [hinit, hc]
    rfl
  · rcases hcases with ⟨hst, k, _, hk, _, _, hg⟩ | ⟨hst, _, hg⟩
    · left
      refine ⟨hst, k, hk, ?_⟩
      rw [gopCalls_append, hhead, hg, List.range_eq_range']
      rfl
    · right
      refine ⟨hst, ?_⟩
      rw [gopCalls_append, hhead, hg, List.range_eq_range']
      rfl

/-- Witness for C16: with the matching mode at ordinal 2 the device calls are
the queries of 0, 1, 2 and then `SetMode 2`. -/
theorem InitGop_enumeration_order_witness :
    (∃ status calls,
      InitGop plainImage 1 (firmwareOf edid1920x1080
        [bgr8 1920 1080 2048, bgr8 1280 720 1280, bgr8 1920 1080 1920]) =
          some (status, calls) ∧
      ((status = EFI_SUCCESS ∧ ∃ k, k < 3 ∧
          gopCalls calls = (List.range (k + 1)).map Call.QueryMode ++ [Call.SetMode k]) ∨
        (status = EFI_UNSUPPORTED ∧ gopCalls calls = (List.range 3).map Call.QueryMode))) ∧
    (InitGop plainImage 1 (firmwareOf edid1920x1080
        [bgr8 1920 1080 2048, bgr8 1280 720 1280, bgr8 1920 1080 1920])).map
      (fun r => (r.1, gopCalls r.2)) =
      some (EFI_SUCCESS,
        [Call.QueryMode 0, Call.QueryMode 1, Call.QueryMode 2, Call.SetMode 2]) :=
  ⟨InitGop_enumeration_order plainImage 1 (firmwareOf edid1920x1080
      [bgr8 1920 1080 2048, bgr8 1280 720 1280, bgr8 1920 1080 1920])
      EFI_SUCCESS 1920 1080 [Call.LocateProtocol kEfiEdidDiscoveredProtocolGuid] 7
      (by decide) (by decide) (by decide) (by decide) (by decide) (by decide),
    by decide⟩

/-! ## Statuses of `QueryMode` and `SetMode` -/

lemma InitGopLoop_withStatuses (img : BootImage) (gop : EFI_GRAPHICS_OUTPUT_PROTOCOL)
    (px py : Nat) (query set : Nat → EFI_STATUS) :
    ∀ fuel i, InitGopLoop img (withStatuses gop query set) px py fuel i =
      InitGopLoop img gop px py fuel i := by
  intro fuel
  induction fuel with
  | zero => intro i; rfl
  | succ n ih =>
    intro i
    simp only [InitGopLoop, ih]
    rfl

lemma InitGop_withGopStatuses (img : BootImage) (ImageHandle : EFI_HANDLE)
    (st : EFI_SYSTEM_TABLE) (query set : Nat → EFI_STATUS) :
    InitGop img ImageHandle (withGopStatuses st query set) = InitGop img ImageHandle st := by
  have hg : GetPreferredResolution (withGopStatuses st query set) 0 0 =
      GetPreferredResolution st 0 0 := rfl
  simp only [InitGop, hg]
  simp only [withGopStatuses, InitGopLoop_withStatuses]
  rfl

/-- C18: the statuses of `QueryMode` and `SetMode` do not enter the outcome of
`InitGop`. Let discovery, handle location and open succeed, `MaxMode` fit 32
bits, and `k` be the lowest ordinal whose descriptor passes `CheckGopInfo` and
has the preferred resolution. Then, whatever `SetMode k` answers, `InitGop`
returns `EFI_SUCCESS`, and its device calls are the queries of `0` to `k`
followed by the one `SetMode k`: no second `SetMode`, no later ordinal. And a
firmware that differs only in these statuses gives the same result and
calls. -/
theorem InitGop_ignores_mode_statuses (img : BootImage) (ImageHandle : EFI_HANDLE)
    (st : EFI_SYSTEM_TABLE) (s : EFI_STATUS) (px py : Nat) (c0 : List Call)
    (handle : EFI_HANDLE) (k : Nat)
    (hpref : GetPreferredResolution st 0 0 = some (s, px, py, c0))
    (hs : EFI_ERROR s = false)
    (hloc : EFI_ERROR st.LocateHandleBuffer.1 = false)
    (hh : st.LocateHandleBuffer.2[0]? = some handle)
    (hopen : EFI_ERROR (st.OpenProtocol handle).1 = false)
    (hmax : (st.OpenProtocol handle).2.MaxMode < 2 ^ 32)
    (hk : k < (st.OpenProtocol handle).2.MaxMode)
    (hmatch : EFI_ERROR (CheckGopInfo ((st.OpenProtocol handle).2.QueryMode k).2) = false ∧
      ((st.OpenProtocol handle).2.QueryMode k).2.HorizontalResolution = px ∧
      ((st.OpenProtocol handle).2.QueryMode k).2.VerticalResolution = py)
    (hlow : ∀ j, j < k →
      ¬ (EFI_ERROR (CheckGopInfo ((st.OpenProtocol handle).2.QueryMode j).2) = false ∧
        ((st.OpenProtocol handle).2.QueryMode j).2.HorizontalResolution = px ∧
        ((st.OpenProtocol handle).2.QueryMode j).2.VerticalResolution = py)) :
    (∃ calls, InitGop img ImageHandle st = some (EFI_SUCCESS, calls) ∧
      gopCalls calls = (List.range (k + 1)).map Call.QueryMode ++ [Call.SetMode k]) ∧
    ∀ query set : Nat → EFI_STATUS,
      InitGop img ImageHandle (withGopStatuses st query set) = InitGop img ImageHandle st := by
  refine ⟨?_, InitGop_withGopStatuses img ImageHandle st⟩
  obtain ⟨head, hhead, hinit⟩ :=
    InitGop_enumerating_gopCalls img ImageHandle st s px py c0 handle hpref hs hloc hh hopen
  obtain ⟨status, calls, hc, hcases⟩ :=
    InitGopLoop_trace img (st.OpenProtocol handle).2 px py hmax
      ((st.OpenProtocol handle).2.MaxMode + 1) 0 (Nat.zero_le _) (by omega)
  have hkm := (modeMatches_iff px py _).2 hmatch
  rcases hcases with ⟨hst, k2, _, hk2, hk2m, hlow2, hg⟩ | ⟨_, hno, _⟩
  · have hkk : k2 = k := by
      rcases Nat.lt_trichotomy k2 k with h | h | h
      · exact absurd ((modeMatches_iff px py _).1 hk2m) (hlow k2 h)
      · exact h
      · have := hlow2 k (Nat.zero_le _) h
        rw [hkm] at this
        exact absurd this (by decide)
    subst hkk
    subst hst
    refine ⟨head ++ calls, ?_, ?_⟩
    · rw [hinit, hc]
      rfl
    · rw [gopCalls_append, hhead, hg, List.range_eq_range']
      rfl
  · have := hno k (Nat.zero_le _) hk
    rw [hkm] at this
    exact absurd this (by decide)

/-- Witness for C18: `QueryMode` and `SetMode` both report `EFI_DEVICE_ERROR`,
and ordinal 0 is committed all the same. -/
theorem InitGop_ignores_mode_statuses_witness :
    (firmwareModeErrors.OpenProtocol 7).2.SetMode 0 = 0x8000000000000007 ∧
    ∃ calls, InitGop plainImage 1 firmwareModeErrors = some (EFI_SUCCESS, calls) ∧
      gopCalls calls = (List.range (0 + 1)).map Call.QueryMode ++ [Call.SetMode 0] :=
  ⟨rfl, (InitGop_ignores_mode_statuses plainImage 1 firmwareModeErrors
    EFI_SUCCESS 1920 1080 [Call.LocateProtocol kEfiEdidDiscoveredProtocolGuid] 7 0
    (by decide) (by decide) (by decide) (by decide) (by decide) (by decide) (by decide)
    (by decide) (by decide)).1⟩

/-! ## Device location -/

lemma openProtocolCalls_append (a b : List Call) :
    openProtocolCalls (a ++ b) = openProtocolCalls a ++ openProtocolCalls b := by
  induction a with
  | nil => simp [openProtocolCalls]
  | cons c t ih => cases c <;> simp [openProtocolCalls, ih]

lemma openProtocolCalls_Print (mem : List CHAR16) : openProtocolCalls (Print mem) = [] := by
  induction mem with
  | nil => simp [Print, openProtocolCalls]
  | cons c t ih =>
    by_cases h0 : c = 0
    · simp [Print, h0, openProtocolCalls]
    · by_cases h10 : c = 10
      · subst h10
        simp [Print, openProtocolCalls, ih]
      · simp [Print, h0, h10, openProtocolCalls, ih]

lemma openProtocolCalls_InitGopLoop (img : BootImage) (gop : EFI_GRAPHICS_OUTPUT_PROTOCOL)
    (px py : Nat) :
    ∀ fuel i r, InitGopLoop img gop px py fuel i = some r → openProtocolCalls r.2 = [] := by
  intro fuel
  induction fuel with
  | zero => intro i r h; simp [InitGopLoop] at h
  | succ n ih =>
    intro i r h
    by_cases hlt : i < gop.MaxMode
    · cases hm : modeMatches px py (gop.QueryMode i).2
      · simp only [InitGopLoop, hlt, if_true, hm] at h
        cases hrec : InitGopLoop img gop px py n ((i + 1) % 2 ^ 32) with
        | none => rw [hrec] at h; simp at h
        | some r2 =>
          obtain ⟨status, rest⟩ := r2
          rw [hrec] at h
          have h3 : (status, Call.QueryMode i ::
              (Print (img.OSSPrintf (wide "(%d, %d)\n")
                [(gop.QueryMode i).2.HorizontalResolution,
                  (gop.QueryMode i).2.VerticalResolution]) ++ rest)) = r := by
            simpa using h
          have hrest := ih _ _ hrec
          rw [← h3]
          simp only at hrest
          simp [openProtocolCalls, openProtocolCalls_append, openProtocolCalls_Print, hrest]
      · simp [InitGopLoop, hlt, hm] at h
        rw [← h]
        simp [openProtocolCalls, openProtocolCalls_append, openProtocolCalls_Print]
    · simp [InitGopLoop, hlt] at h
      rw [← h]
      simp [openProtocolCalls_Print]

lemma InitGop_opens_first (img : BootImage) (ImageHandle : EFI_HANDLE)
    (st : EFI_SYSTEM_TABLE) (status : EFI_STATUS) (calls : List Call)
    (h : InitGop img ImageHandle st = some (status, calls)) :
    openProtocolCalls calls = [] ∨
      ∃ handle, st.LocateHandleBuffer.2[0]? = some handle ∧
        openProtocolCalls calls = [handle] := by
  cases hpref : GetPreferredResolution st 0 0 with
  | none => simp [InitGop, hpref] at h
  | some r =>
    obtain ⟨s, px, py, c0⟩ := r
    have hc0 := (GetPreferredResolution_result st 0 0 _ hpref).2
    simp only at hc0
    subst hc0
    cases hs : EFI_ERROR s
    · cases hloc : EFI_ERROR st.LocateHandleBuffer.1
      · cases hh : st.LocateHandleBuffer.2[0]? with
        | none => simp [InitGop, hpref, hs, hloc, hh] at h
        | some handle =>
          right
          refine ⟨handle, rfl, ?_⟩
          cases hopen : EFI_ERROR (st.OpenProtocol handle).1
          · simp only [InitGop, hpref, hs, hloc, hh, hopen] at h
            cases hloop : InitGopLoop img (st.OpenProtocol handle).2 px py
                ((st.OpenProtocol handle).2.MaxMode + 1) 0 with
            | none => rw [hloop] at h; simp at h
            | some r =>
              have hr := openProtocolCalls_InitGopLoop _ _ _ _ _ _ _ hloop
              obtain ⟨status2, rest⟩ := r
              rw [hloop] at h
              simp only at hr
              simp at h
              rw [← h.2]
              simp [openProtocolCalls, openProtocolCalls_append, openProtocolCalls_Print, hr]
          · simp [InitGop, hpref, hs, hloc, hh, hopen] at h
            rw [← h.2]
            simp [openProtocolCalls, openProtocolCalls_append, openProtocolCalls_Print]
      · left
        simp [InitGop, hpref, hs, hloc] at h
        rw [← h.2]
        simp [openProtocolCalls, openProtocolCalls_append, openProtocolCalls_Print]
    · left
      simp [InitGop, hpref, hs] at h
      rw [← h.2]
      simp [openProtocolCalls, openProtocolCalls_append, openProtocolCalls_Print]

/-- C11: let discovery succeed. If handle enumeration answers with an error
status (the way the firmware reports that no graphics device exists), `InitGop`
returns that status without reading the handle buffer, whatever it holds, and
calls none of `OpenProtocol`, `QueryMode`, `SetMode`. If enumeration succeeds
and opening the first handle answers with an error status, `InitGop` returns
that status with its one `OpenProtocol` call for that handle and calls neither
`QueryMode` nor `SetMode`. And whenever `InitGop` returns, the handles it
opened are none or the first handle of the buffer alone. -/
theorem InitGop_device_location_failure (img : BootImage) (ImageHandle : EFI_HANDLE)
    (st : EFI_SYSTEM_TABLE) (s : EFI_STATUS) (px py : Nat) (c0 : List Call)
    (hpref : GetPreferredResolution st 0 0 = some (s, px, py, c0))
    (hs : EFI_ERROR s = false) :
    (EFI_ERROR st.LocateHandleBuffer.1 = true →
      ∃ calls, InitGop img ImageHandle st = some (st.LocateHandleBuffer.1, calls) ∧
        openProtocolCalls calls = [] ∧ gopCalls calls = []) ∧
    (∀ handle, EFI_ERROR st.LocateHandleBuffer.1 = false →
      st.LocateHandleBuffer.2[0]? = some handle →
      EFI_ERROR (st.OpenProtocol handle).1 = true →
      ∃ calls, InitGop img ImageHandle st = some ((st.OpenProtocol handle).1, calls) ∧
        openProtocolCalls calls = [handle] ∧ gopCalls calls = []) ∧
    (∀ status calls, InitGop img ImageHandle st = some (status, calls) →
      openProtocolCalls calls = [] ∨
        ∃ handle, st.LocateHandleBuffer.2[0]? = some handle ∧
          openProtocolCalls calls = [handle]) := by
  have hc0 := (GetPreferredResolution_result st 0 0 _ hpref).2
  simp only at hc0
  subst hc0
  refine ⟨?_, ?_, fun status calls h => InitGop_opens_first img ImageHandle st status calls h⟩
  · intro hloc
    refine ⟨[Call.LocateProtocol kEfiEdidDiscoveredProtocolGuid]
      ++ [Call.LocateHandleBuffer kEfiGraphicsOutputProtocolGuid]
      ++ Print (castCHAR16 img "Error: GOP not found (first)\n"), ?_, ?_, ?_⟩
    · simp [InitGop, hpref, hs, hloc]
    · simp [openProtocolCalls, openProtocolCalls_append, openProtocolCalls_Print]
    · simp [gopCalls, gopCalls_append, gopCalls_Print]
  · intro handle hloc hh hopen
    refine ⟨[Call.LocateProtocol kEfiEdidDiscoveredProtocolGuid]
      ++ [Call.LocateHandleBuffer kEfiGraphicsOutputProtocolGuid]
      ++ [Call.OpenProtocol handle kEfiGraphicsOutputProtocolGuid ImageHandle]
      ++ Print (castCHAR16 img "Error: GOP not found (second)\n"), ?_, ?_, ?_⟩
    · simp [InitGop, hpref, hs, hloc, hh, hopen]
    · simp [openProtocolCalls, openProtocolCalls_append, openProtocolCalls_Print]
    · simp [gopCalls, gopCalls_append, gopCalls_Print]

/-- Witness for C11: a firmware without graphics device (`EFI_NOT_FOUND`, empty
buffer), and a firmware whose first of two handles cannot be opened. -/
theorem InitGop_device_location_failure_witness :
    (∃ calls, InitGop plainImage 1 firmwareNoGop = some (0x800000000000000E, calls) ∧
      openProtocolCalls calls = [] ∧ gopCalls calls = []) ∧
    (∃ calls, InitGop plainImage 1 firmwareOpenRejected = some (0x800000000000000F, calls) ∧
      openProtocolCalls calls = [7] ∧ gopCalls calls = []) :=
  ⟨(InitGop_device_location_failure plainImage 1 firmwareNoGop EFI_SUCCESS 1920 1080
      [Call.LocateProtocol kEfiEdidDiscoveredProtocolGuid] (by decide) (by decide)).1
      (by decide),
    (InitGop_device_location_failure plainImage 1 firmwareOpenRejected EFI_SUCCESS 1920 1080
      [Call.LocateProtocol kEfiEdidDiscoveredProtocolGuid] (by decide) (by decide)).2.1 7
      (by decide) (by decide) (by decide)⟩

/-! ## Stage order of `EfiMain` -/

lemma isConsole_Print (mem : List CHAR16) : ∀ c ∈ Print mem, isConsole c = true := by
  intro c hc
  obtain ⟨str, rfl⟩ := Print_only_OutputString mem c hc
  rfl

lemma PrepareFilesystem_calls (ImageHandle : EFI_HANDLE) (st : EFI_SYSTEM_TABLE) :
    ∀ c ∈ (PrepareFilesystem ImageHandle st).2, isFilesystem c = true := by
  intro c hc
  cases h1 : EFI_ERROR (st.HandleProtocol ImageHandle kEfiLoadedImageProtocolGuid) <;>
    cases h2 : EFI_ERROR
      (st.HandleProtocol st.DeviceHandle kEfiSimpleFileSystemProtocolGuid) <;>
    cases h3 : EFI_ERROR st.OpenVolume <;>
    simp [PrepareFilesystem, h1, h2, h3] at hc <;>
    (try rcases hc with rfl | rfl | rfl) <;> rfl

lemma PrepareFilesystem_ok (ImageHandle : EFI_HANDLE) (st : EFI_SYSTEM_TABLE)
    (h : EFI_ERROR (PrepareFilesystem ImageHandle st).1 = false) :
    EFI_ERROR st.OpenVolume = false ∧ Call.OpenVolume ∈ (PrepareFilesystem ImageHandle st).2 := by
  cases h1 : EFI_ERROR (st.HandleProtocol ImageHandle kEfiLoadedImageProtocolGuid) <;>
    cases h2 : EFI_ERROR
      (st.HandleProtocol st.DeviceHandle kEfiSimpleFileSystemProtocolGuid) <;>
    cases h3 : EFI_ERROR st.OpenVolume <;>
    simp [PrepareFilesystem, h1, h2, h3] at h ⊢

lemma InitGopLoop_calls (img : BootImage) (gop : EFI_GRAPHICS_OUTPUT_PROTOCOL)
    (px py : Nat) :
    ∀ fuel i r, InitGopLoop img gop px py fuel i = some r →
      ∀ c ∈ r.2, isConsole c = true ∨ isNegotiation c = true := by
  intro fuel
  induction fuel with
  | zero => intro i r h; simp [InitGopLoop] at h
  | succ n ih =>
    intro i r h
    by_cases hlt : i < gop.MaxMode
    · cases hm : modeMatches px py (gop.QueryMode i).2
      · simp only [InitGopLoop, hlt, if_true, hm] at h
        cases hrec : InitGopLoop img gop px py n ((i + 1) % 2 ^ 32) with
        | none => rw [hrec] at h; simp at h
        | some r2 =>
          obtain ⟨status, rest⟩ := r2
          rw [hrec] at h
          have h3 : (status, Call.QueryMode i ::
              (Print (img.OSSPrintf (wide "(%d, %d)\n")
                [(gop.QueryMode i).2.HorizontalResolution,
                  (gop.QueryMode i).2.VerticalResolution]) ++ rest)) = r := by
            simpa using h
          have hrest := ih _ _ hrec
          rw [← h3]
          intro c hc
          simp only [List.mem_cons, List.mem_append] at hc
          rcases hc with rfl | hc | hc
          · right; rfl
          · left; exact isConsole_Print _ c hc
          · exact hrest c hc
      · simp [InitGopLoop, hlt, hm] at h
        rw [← h]
        intro c hc
        simp only [List.mem_cons, List.mem_append] at hc
        rcases hc with rfl | hc | rfl | hc
        · right; rfl
        · left; exact isConsole_Print _ c hc
        · right; rfl
        · left; exact isConsole_Print _ c hc
    · simp [InitGopLoop, hlt] at h
      rw [← h]
      intro c hc
      left
      exact isConsole_Print _ c hc

lemma InitGop_calls (img : BootImage) (ImageHandle : EFI_HANDLE)
    (st : EFI_SYSTEM_TABLE) (status : EFI_STATUS) (calls : List Call)
    (h : InitGop img ImageHandle st = some (status, calls)) :
    ∀ c ∈ calls, isConsole c = true ∨ isNegotiation c = true := by
  cases hpref : GetPreferredResolution st 0 0 with
  | none => simp [InitGop, hpref] at h
  | some r =>
    obtain ⟨s, px, py, c0⟩ := r
    have hc0 := (GetPreferredResolution_result st 0 0 _ hpref).2
    simp only at hc0
    subst hc0
    cases hs : EFI_ERROR s
    · cases hloc : EFI_ERROR st.LocateHandleBuffer.1
      · cases hh : st.LocateHandleBuffer.2[0]? with
        | none => simp [InitGop, hpref, hs, hloc, hh] at h
        | some handle =>
          cases hopen : EFI_ERROR (st.OpenProtocol handle).1
          · simp only [InitGop, hpref, hs, hloc, hh, hopen] at h
            cases hloop : InitGopLoop img (st.OpenProtocol handle).2 px py
                ((st.OpenProtocol handle).2.MaxMode + 1) 0 with
            | none => rw [hloop] at h; simp at h
            | some r =>
              have hr := InitGopLoop_calls _ _ _ _ _ _ _ hloop
              obtain ⟨status2, rest⟩ := r
              rw [hloop] at h
              simp only at hr
              simp at h
              rw [← h.2]
              intro c hc
              simp only [List.mem_cons, List.mem_append] at hc
              rcases hc with rfl | rfl | rfl | hc | hc | hc | hc | hc
              · right; rfl
              · right; rfl
              · right; rfl
              · left; exact isConsole_Print _ c hc
              · left; exact isConsole_Print _ c hc
              · left; exact isConsole_Print _ c hc
              · left; exact isConsole_Print _ c hc
              · exact hr c hc
          · simp [InitGop, hpref, hs, hloc, hh, hopen] at h
            rw [← h.2]
            intro c hc
            simp only [List.mem_cons, List.mem_append] at hc
            rcases hc with rfl | rfl | rfl | hc
            · right; rfl
            · right; rfl
            · right; rfl
            · left; exact isConsole_Print _ c hc
      · simp [InitGop, hpref, hs, hloc] at h
        rw [← h.2]
        intro c hc
        simp only [List.mem_cons, List.mem_append] at hc
        rcases hc with rfl | rfl | hc
        · right; rfl
        · right; rfl
        · left; exact isConsole_Print _ c hc
    · simp [InitGop, hpref, hs] at h
      rw [← h.2]
      intro c hc
      simp only [List.mem_cons, List.mem_append] at hc
      rcases hc with rfl | hc
      · right; rfl
      · left; exact isConsole_Print _ c hc

lemma isConsole_stage (c : Call) (h : isConsole c = true) :
    isAllocatePages c = false ∧ isNegotiation c = false ∧ isFilesystem c = false := by
  cases c <;> simp_all [isConsole, isAllocatePages, isNegotiation, isFilesystem]

lemma isFilesystem_stage (c : Call) (h : isFilesystem c = true) :
    isAllocatePages c = false ∧ isNegotiation c = false := by
  cases c <;> simp_all [isAllocatePages, isNegotiation, isFilesystem]

lemma isNegotiation_stage (c : Call) (h : isNegotiation c = true) :
    isAllocatePages c = false ∧ isFilesystem c = false := by
  cases c <;> simp_all [isAllocatePages, isNegotiation, isFilesystem]

lemma EfiMain_before_allocation (ImageHandle : EFI_HANDLE) (st : EFI_SYSTEM_TABLE)
    (mem : List CHAR16) :
    ∀ c ∈ Print (wide "Preparing filesystem...\n") ++ (PrepareFilesystem ImageHandle st).2
        ++ Print mem,
      isAllocatePages c = false ∧ isNegotiation c = false := by
  intro c hc
  simp only [List.mem_append] at hc
  rcases hc with (hc | hc) | hc
  · exact ⟨(isConsole_stage c (isConsole_Print _ c hc)).1,
      (isConsole_stage c (isConsole_Print _ c hc)).2.1⟩
  · exact isFilesystem_stage c (PrepareFilesystem_calls ImageHandle st c hc)
  · exact ⟨(isConsole_stage c (isConsole_Print _ c hc)).1,
      (isConsole_stage c (isConsole_Print _ c hc)).2.1⟩

/-- C12: the stage order of `EfiMain`. If `PrepareFilesystem` fails, `EfiMain`
stops there and has called neither `AllocatePages` nor any service of display
negotiation. If it succeeds, `OpenVolume` succeeded, and the calls of `EfiMain`
are: calls without `AllocatePages` and without negotiation services, among them
`OpenVolume`; then the one fixed-address `AllocatePages` request; then, if that
request fails, console calls only (negotiation never starts), and otherwise
calls that hold neither `AllocatePages` nor file-system services. -/
theorem EfiMain_stage_order (img : BootImage) (ImageHandle : EFI_HANDLE)
    (st : EFI_SYSTEM_TABLE) :
    (EFI_ERROR (PrepareFilesystem ImageHandle st).1 = true →
      ∃ calls, EfiMain img ImageHandle st = some (Halt.PrepareFilesystem, calls) ∧
        ∀ c ∈ calls, isAllocatePages c = false ∧ isNegotiation c = false) ∧
    (EFI_ERROR (PrepareFilesystem ImageHandle st).1 = false →
      EFI_ERROR st.OpenVolume = false ∧
      (EFI_ERROR (AllocateMemoryForOS st kPhysicalAddressOS).1 = true →
        ∃ pre post, EfiMain img ImageHandle st = some (Halt.AllocateMemoryForOS,
            pre ++ Call.AllocatePages EFI_ALLOCATE_TYPE.AllocateAddress
              EFI_MEMORY_TYPE.EfiLoaderData kNumPagesForOS kPhysicalAddressOS :: post) ∧
          Call.OpenVolume ∈ pre ∧
          (∀ c ∈ pre, isAllocatePages c = false ∧ isNegotiation c = false) ∧
          (∀ c ∈ post, isConsole c = true)) ∧
      (EFI_ERROR (AllocateMemoryForOS st kPhysicalAddressOS).1 = false →
        ∀ halt calls, EfiMain img ImageHandle st = some (halt, calls) →
          ∃ pre post, calls = pre ++ Call.AllocatePages EFI_ALLOCATE_TYPE.AllocateAddress
              EFI_MEMORY_TYPE.EfiLoaderData kNumPagesForOS kPhysicalAddressOS :: post ∧
            Call.OpenVolume ∈ pre ∧
            (∀ c ∈ pre, isAllocatePages c = false ∧ isNegotiation c = false) ∧
            (∀ c ∈ post, isAllocatePages c = false ∧ isFilesystem c = false))) := by
  refine ⟨?_, ?_⟩
  · intro hfs
    refine ⟨Print (wide "Preparing filesystem...\n") ++ (PrepareFilesystem ImageHandle st).2
      ++ Print (castCHAR16 img "Failed to prepare filesystem\n"), ?_,
      EfiMain_before_allocation ImageHandle st _⟩
    simp [EfiMain, hfs]
  · intro hfs
    obtain ⟨hvol, hmemvol⟩ := PrepareFilesystem_ok ImageHandle st hfs
    refine ⟨hvol, ?_, ?_⟩
    · intro hmem
      have hmem2 : EFI_ERROR (st.AllocatePages EFI_ALLOCATE_TYPE.AllocateAddress
          EFI_MEMORY_TYPE.EfiLoaderData kNumPagesForOS kPhysicalAddressOS).1 = true := hmem
      refine ⟨Print (wide "Preparing filesystem...\n") ++ (PrepareFilesystem ImageHandle st).2
        ++ Print (wide "Allocating memory...\n"),
        Print (castCHAR16 img "Failed to allocate memory for OS.\n"), ?_, ?_,
        EfiMain_before_allocation ImageHandle st _, isConsole_Print _⟩
      · simp [EfiMain, hfs, hmem2, AllocateMemoryForOS]
      · simp [hmemvol]
    · intro hmem halt calls h
      have hmem2 : EFI_ERROR (st.AllocatePages EFI_ALLOCATE_TYPE.AllocateAddress
          EFI_MEMORY_TYPE.EfiLoaderData kNumPagesForOS kPhysicalAddressOS).1 = false := hmem
      cases hgop : InitGop img ImageHandle st with
      | none => simp [EfiMain, hfs, hmem2, hgop, AllocateMemoryForOS] at h
      | some r =>
        obtain ⟨status, gcalls⟩ := r
        have hg := InitGop_calls img ImageHandle st status gcalls hgop
        have hgood : ∀ c ∈ gcalls, isAllocatePages c = false ∧ isFilesystem c = false := by
          intro c hc
          rcases hg c hc with h1 | h1
          · exact ⟨(isConsole_stage c h1).1, (isConsole_stage c h1).2.2⟩
          · exact isNegotiation_stage c h1
        have hcon : ∀ (mem : List CHAR16), ∀ c ∈ Print mem,
            isAllocatePages c = false ∧ isFilesystem c = false := fun mem c hc =>
          ⟨(isConsole_stage c (isConsole_Print _ c hc)).1,
            (isConsole_stage c (isConsole_Print _ c hc)).2.2⟩
        cases hst : EFI_ERROR status
        · refine ⟨Print (wide "Preparing filesystem...\n")
            ++ (PrepareFilesystem ImageHandle st).2 ++ Print (wide "Allocating memory...\n"),
            Print (wide "Initializing GOP...\n") ++ gcalls ++ Print (wide "Hello World!\n")
              ++ Print (wide "Make America Great Again!\n"), ?_, ?_,
            EfiMain_before_allocation ImageHandle st _, ?_⟩
          · simp [EfiMain, hfs, hmem2, hgop, hst, AllocateMemoryForOS] at h
            rw [← h.2]
            simp
          · simp [hmemvol]
          · intro c hc
            simp only [List.mem_append] at hc
            rcases hc with ((hc | hc) | hc) | hc
            · exact hcon _ c hc
            · exact hgood c hc
            · exact hcon _ c hc
            · exact hcon _ c hc
        · refine ⟨Print (wide "Preparing filesystem...\n")
            ++ (PrepareFilesystem ImageHandle st).2 ++ Print (wide "Allocating memory...\n"),
            Print (wide "Initializing GOP...\n") ++ gcalls
              ++ Print (castCHAR16 img "Failed to initialize GOP.\n"), ?_, ?_,
            EfiMain_before_allocation ImageHandle st _, ?_⟩
          · simp [EfiMain, hfs, hmem2, hgop, hst, AllocateMemoryForOS] at h
            rw [← h.2]
            simp
          · simp [hmemvol]
          · intro c hc
            simp only [List.mem_append] at hc
            rcases hc with (hc | hc) | hc
            · exact hcon _ c hc
            · exact hgood c hc
            · exact hcon _ c hc

/-- Witness for C12: when the allocator rejects the request, `EfiMain` stops
in the second stage and no negotiation service is among its calls. -/
theorem EfiMain_stage_order_witness :
    ∃ pre post, EfiMain plainImage 1 firmwareNoMemory = some (Halt.AllocateMemoryForOS,
        pre ++ Call.AllocatePages EFI_ALLOCATE_TYPE.AllocateAddress
          EFI_MEMORY_TYPE.EfiLoaderData kNumPagesForOS kPhysicalAddressOS :: post) ∧
      Call.OpenVolume ∈ pre ∧
      (∀ c ∈ pre, isAllocatePages c = false ∧ isNegotiation c = false) ∧
      (∀ c ∈ post, isConsole c = true) :=
  ((EfiMain_stage_order plainImage 1 firmwareNoMemory).2 (by decide)).2.1 (by decide)

/-! ## Repeated reservation -/

lemma rangeAllocator_grants (s : List (Nat × Nat)) (m : EFI_MEMORY_TYPE) (p a : Nat)
    (h : EFI_ERROR (rangeAllocator s EFI_ALLOCATE_TYPE.AllocateAddress m p a).1 = false) :
    (rangeAllocator s EFI_ALLOCATE_TYPE.AllocateAddress m p a).2.1 = a ∧
      ∀ x, a ≤ x → x < a + p * 4096 →
        rangeReserved (rangeAllocator s EFI_ALLOCATE_TYPE.AllocateAddress m p a).2.2 x := by
  unfold rangeAllocator at h ⊢
  split_ifs at h ⊢ with hov
  · have e : EFI_ERROR 0x800000000000000E = true := by decide
    exact absurd (h.symm.trans e) (by decide)
  · refine ⟨rfl, fun x h1 h2 => ⟨(a, p), List.mem_cons_self _ _, h1, h2⟩⟩

lemma rangeAllocator_rejects (s : List (Nat × Nat)) (m : EFI_MEMORY_TYPE) (p a : Nat)
    (h : ∃ x, a ≤ x ∧ x < a + p * 4096 ∧ rangeReserved s x) :
    EFI_ERROR (rangeAllocator s EFI_ALLOCATE_TYPE.AllocateAddress m p a).1 = true := by
  obtain ⟨x, h1, h2, r, hr, h3, h4⟩ := h
  have hov : s.any (fun r => decide (a < r.1 + r.2 * 4096) && decide (r.1 < a + p * 4096))
      = true := by
    rw [List.any_eq_true]
    refine ⟨r, hr, ?_⟩
    have e1 : a < r.1 + r.2 * 4096 := by omega
    have e2 : r.1 < a + p * 4096 := by omega
    simp [e1, e2]
  unfold rangeAllocator
  rw [if_pos hov]
  show EFI_ERROR 0x800000000000000E = true
  decide

/-- C13, amended: `AllocateMemoryForOS` makes exactly one request, for the
address the global holds and 512 pages, and returns the status of the
allocator as it is. Over an allocator with a state that, on granting a
fixed-address request, leaves the requested address in `*Memory` and reserves
the range, and that rejects a fixed-address request touching a reserved
address: when a first call succeeds, a second call fails, and both calls
request 512 pages at `0x00100000`. -/
theorem AllocateMemoryForOS_no_retry {σ : Type} (st : EFI_SYSTEM_TABLE)
    (alloc : σ → EFI_ALLOCATE_TYPE → EFI_MEMORY_TYPE → Nat → Nat → EFI_STATUS × Nat × σ)
    (reserved : σ → Nat → Prop) (s0 : σ)
    (hgrant : ∀ s m p a,
      EFI_ERROR (alloc s EFI_ALLOCATE_TYPE.AllocateAddress m p a).1 = false →
      (alloc s EFI_ALLOCATE_TYPE.AllocateAddress m p a).2.1 = a ∧
        ∀ x, a ≤ x → x < a + p * 4096 →
          reserved (alloc s EFI_ALLOCATE_TYPE.AllocateAddress m p a).2.2 x)
    (hreject : ∀ s m p a, (∃ x, a ≤ x ∧ x < a + p * 4096 ∧ reserved s x) →
      EFI_ERROR (alloc s EFI_ALLOCATE_TYPE.AllocateAddress m p a).1 = true)
    (hfirst : EFI_ERROR (AllocateMemoryForOS_twice st alloc s0).1.1 = false) :
    (∀ (st2 : EFI_SYSTEM_TABLE) (address : Nat),
      AllocateMemoryForOS st2 address =
        ((st2.AllocatePages EFI_ALLOCATE_TYPE.AllocateAddress
            EFI_MEMORY_TYPE.EfiLoaderData 512 address).1,
          (st2.AllocatePages EFI_ALLOCATE_TYPE.AllocateAddress
            EFI_MEMORY_TYPE.EfiLoaderData 512 address).2,
          [Call.AllocatePages EFI_ALLOCATE_TYPE.AllocateAddress
            EFI_MEMORY_TYPE.EfiLoaderData 512 address])) ∧
    (AllocateMemoryForOS_twice st alloc s0).1.2.2 =
      [Call.AllocatePages EFI_ALLOCATE_TYPE.AllocateAddress
        EFI_MEMORY_TYPE.EfiLoaderData 512 0x00100000] ∧
    (AllocateMemoryForOS_twice st alloc s0).2.2.2 =
      [Call.AllocatePages EFI_ALLOCATE_TYPE.AllocateAddress
        EFI_MEMORY_TYPE.EfiLoaderData 512 0x00100000] ∧
    EFI_ERROR (AllocateMemoryForOS_twice st alloc s0).2.1 = true := by
  have hf : EFI_ERROR (alloc s0 EFI_ALLOCATE_TYPE.AllocateAddress
      EFI_MEMORY_TYPE.EfiLoaderData kNumPagesForOS kPhysicalAddressOS).1 = false := hfirst
  obtain ⟨hsame, hres⟩ := hgrant s0 _ _ _ hf
  have hrej := hreject (alloc s0 EFI_ALLOCATE_TYPE.AllocateAddress
      EFI_MEMORY_TYPE.EfiLoaderData kNumPagesForOS kPhysicalAddressOS).2.2
    EFI_MEMORY_TYPE.EfiLoaderData kNumPagesForOS kPhysicalAddressOS
    ⟨kPhysicalAddressOS, le_rfl, by decide, hres _ le_rfl (by decide)⟩
  refine ⟨fun st2 address => rfl, rfl, ?_, ?_⟩
  · show [Call.AllocatePages EFI_ALLOCATE_TYPE.AllocateAddress EFI_MEMORY_TYPE.EfiLoaderData
      kNumPagesForOS (alloc s0 EFI_ALLOCATE_TYPE.AllocateAddress
        EFI_MEMORY_TYPE.EfiLoaderData kNumPagesForOS kPhysicalAddressOS).2.1] = _
    rw [hsame]
    rfl
  · show EFI_ERROR (alloc _ EFI_ALLOCATE_TYPE.AllocateAddress EFI_MEMORY_TYPE.EfiLoaderData
      kNumPagesForOS (alloc s0 EFI_ALLOCATE_TYPE.AllocateAddress
        EFI_MEMORY_TYPE.EfiLoaderData kNumPagesForOS kPhysicalAddressOS).2.1).1 = true
    rw [hsame]
    exact hrej

/-- Witness for C13: the range allocator with nothing reserved grants the
first call and rejects the second with `EFI_NOT_FOUND`. -/
theorem AllocateMemoryForOS_no_retry_witness :
    (AllocateMemoryForOS_twice (firmwareOf edid1920x1080 scenarioModes)
      rangeAllocator []).1.1 = EFI_SUCCESS ∧
    (AllocateMemoryForOS_twice (firmwareOf edid1920x1080 scenarioModes)
      rangeAllocator []).2.1 = 0x800000000000000E ∧
    EFI_ERROR (AllocateMemoryForOS_twice (firmwareOf edid1920x1080 scenarioModes)
      rangeAllocator []).2.1 = true :=
  ⟨by decide, by decide,
    (AllocateMemoryForOS_no_retry (firmwareOf edid1920x1080 scenarioModes) rangeAllocator
      rangeReserved [] rangeAllocator_grants rangeAllocator_rejects (by decide)).2.2.2⟩

lemma shiftingAllocator_reserves (s : List (Nat × Nat)) (m : EFI_MEMORY_TYPE) (p a : Nat)
    (h : EFI_ERROR (shiftingAllocator s EFI_ALLOCATE_TYPE.AllocateAddress m p a).1 = false) :
    ∀ x, a ≤ x → x < a + p * 4096 →
      rangeReserved (shiftingAllocator s EFI_ALLOCATE_TYPE.AllocateAddress m p a).2.2 x := by
  unfold shiftingAllocator at h ⊢
  split_ifs at h ⊢ with hov
  · have e : EFI_ERROR 0x800000000000000E = true := by decide
    exact absurd (h.symm.trans e) (by decide)
  · exact fun x h1 h2 => ⟨(a, p), List.mem_cons_self _ _, h1, h2⟩

lemma shiftingAllocator_rejects (s : List (Nat × Nat)) (m : EFI_MEMORY_TYPE) (p a : Nat)
    (h : ∃ x, a ≤ x ∧ x < a + p * 4096 ∧ rangeReserved s x) :
    EFI_ERROR (shiftingAllocator s EFI_ALLOCATE_TYPE.AllocateAddress m p a).1 = true := by
  obtain ⟨x, h1, h2, r, hr, h3, h4⟩ := h
  have hov : s.any (fun r => decide (a < r.1 + r.2 * 4096) && decide (r.1 < a + p * 4096))
      = true := by
    rw [List.any_eq_true]
    refine ⟨r, hr, ?_⟩
    have e1 : a < r.1 + r.2 * 4096 := by omega
    have e2 : r.1 < a + p * 4096 := by omega
    simp [e1, e2]
  unfold shiftingAllocator
  rw [if_pos hov]
  show EFI_ERROR 0x800000000000000E = true
  decide

/-- C13, as stated, fails: `shiftingAllocator` reserves every range it grants
and rejects every fixed-address request that touches a reserved address, and
it grants the first call of `AllocateMemoryForOS`; but it leaves `0x00300000`
in the global `kPhysicalAddressOS`, so the second call requests 512 pages at
`0x00300000`, not at `0x00100000`, and is granted. -/
theorem AllocateMemoryForOS_twice_moved :
    (∀ (s : List (Nat × Nat)) (m : EFI_MEMORY_TYPE) (p a : Nat),
      (∃ x, a ≤ x ∧ x < a + p * 4096 ∧ rangeReserved s x) →
      EFI_ERROR (shiftingAllocator s EFI_ALLOCATE_TYPE.AllocateAddress m p a).1 = true) ∧
    (∀ (s : List (Nat × Nat)) (m : EFI_MEMORY_TYPE) (p a : Nat),
      EFI_ERROR (shiftingAllocator s EFI_ALLOCATE_TYPE.AllocateAddress m p a).1 = false →
      ∀ x, a ≤ x → x < a + p * 4096 →
        rangeReserved (shiftingAllocator s EFI_ALLOCATE_TYPE.AllocateAddress m p a).2.2 x) ∧
    (AllocateMemoryForOS_twice (firmwareOf edid1920x1080 scenarioModes)
      shiftingAllocator []).1.1 = EFI_SUCCESS ∧
    (AllocateMemoryForOS_twice (firmwareOf edid1920x1080 scenarioModes)
      shiftingAllocator []).1.2.2 =
        [Call.AllocatePages EFI_ALLOCATE_TYPE.AllocateAddress
          EFI_MEMORY_TYPE.EfiLoaderData 512 0x00100000] ∧
    (AllocateMemoryForOS_twice (firmwareOf edid1920x1080 scenarioModes)
      shiftingAllocator []).2.2.2 =
        [Call.AllocatePages EFI_ALLOCATE_TYPE.AllocateAddress
          EFI_MEMORY_TYPE.EfiLoaderData 512 0x00300000] ∧
    (AllocateMemoryForOS_twice (firmwareOf edid1920x1080 scenarioModes)
      shiftingAllocator []).2.1 = EFI_SUCCESS ∧
    EFI_ERROR (AllocateMemoryForOS_twice (firmwareOf edid1920x1080 scenarioModes)
      shiftingAllocator []).2.1 = false :=
  ⟨shiftingAllocator_rejects, shiftingAllocator_reserves, by decide, by decide, by decide,
    by decide, by decide⟩

/-! ## Diagnostics -/

lemma consoleText_garbled (img : BootImage) (message : String) (a b : UINT8)
    (tail : List UINT8) (hm : narrow message = a :: b :: tail)
    (h0 : a.val + 256 * b.val ≠ 0) (h10 : a.val + 256 * b.val ≠ 10)
    (hexp : (crlf (cstr (wide message))).head? ≠ some (a.val + 256 * b.val)) :
    consoleText (Print (castCHAR16 img message)) ≠ crlf (cstr (wide message)) := by
  intro h
  apply hexp
  rw [← h]
  simp [castCHAR16, hm, asCHAR16, Print, h0, h10, consoleText, cstr, List.takeWhile_cons]

/-- C14, as the code behaves: the text `Print` hands to the console for a
message passed the way `RETURN_ON_ERROR` and `LOOP_ON_ERROR` pass it, a narrow
literal cast to `CHAR16*`, is never the diagnostic followed by carriage return
and line feed, whatever follows the literal in the image: the first unit
handed over joins the first two bytes of the literal. With zero bytes after
the literal, `EfiMain` under an allocator that rejects the request hands the
console the two progress lines and then seventeen such units, not
`Failed to allocate memory for OS.` and no line end. -/
theorem EfiMain_diagnostic_garbled (img : BootImage) :
    consoleText (Print (castCHAR16 img "Failed to prepare filesystem\n")) ≠
      crlf (cstr (wide "Failed to prepare filesystem\n")) ∧
    consoleText (Print (castCHAR16 img "Failed to allocate memory for OS.\n")) ≠
      crlf (cstr (wide "Failed to allocate memory for OS.\n")) ∧
    consoleText (Print (castCHAR16 img "Failed to initialize GOP.\n")) ≠
      crlf (cstr (wide "Failed to initialize GOP.\n")) ∧
    consoleText (Print (castCHAR16 img "Error: Could not get information from EDID.\n")) ≠
      crlf (cstr (wide "Error: Could not get information from EDID.\n")) ∧
    consoleText (Print (castCHAR16 img "Error: GOP not found (first)\n")) ≠
      crlf (cstr (wide "Error: GOP not found (first)\n")) ∧
    consoleText (Print (castCHAR16 img "Error: GOP not found (second)\n")) ≠
      crlf (cstr (wide "Error: GOP not found (second)\n")) ∧
    (EfiMain plainImage 1 firmwareNoMemory).map (fun r => (r.1, consoleText r.2)) =
      some (Halt.AllocateMemoryForOS,
        crlf (cstr (wide "Preparing filesystem...\n")) ++
        crlf (cstr (wide "Allocating memory...\n")) ++
        [24902, 27753, 25701, 29728, 8303, 27745, 28524, 24931, 25972, 27936, 28005, 29295,
          8313, 28518, 8306, 21327, 2606]) := by
  refine ⟨?_, ?_, ?_, ?_, ?_, ?_, by decide⟩
  · exact consoleText_garbled img _ 70 97 _ rfl (by decide) (by decide) (by decide)
  · exact consoleText_garbled img _ 70 97 _ rfl (by decide) (by decide) (by decide)
  · exact consoleText_garbled img _ 70 97 _ rfl (by decide) (by decide) (by decide)
  · exact consoleText_garbled img _ 69 114 _ rfl (by decide) (by decide) (by decide)
  · exact consoleText_garbled img _ 69 114 _ rfl (by decide) (by decide) (by decide)
  · exact consoleText_garbled img _ 69 114 _ rfl (by decide) (by decide) (by decide)


end Ramen
